import Mathlib

/-!
Shallow embedding of the Unified Extraction Normalization Pipeline of the
docs-ai-extraction repository (`server/python_ocr/`): the JSON-candidate
extraction, schema normalization, markdown rendering, Azure polling loop and
the FastAPI orchestration of `main.py`, together with proofs about them.

Python values are modelled by `PyVal`; Python floats are modelled as exact
decimals `m * 10 ^ e` (every float literal and every float computed by the
modelled code paths is such a decimal); Python exceptions are modelled by
`PyErr` and fallible code returns `Except PyErr _`.
-/

/-- A Python value as it occurs in the pipeline: the JSON-representable values
(`None`, booleans, ints, floats, strings, lists, dicts with string keys). -/
inductive PyVal where
  | none : PyVal
  | bool : Bool → PyVal
  | int : Int → PyVal
  | float : Int → Int → PyVal
  | str : String → PyVal
  | list : List PyVal → PyVal
  | dict : List (String × PyVal) → PyVal

/-- The rational value denoted by a modelled float `.float m e`,
namely `m * 10 ^ e`. -/
def decValue (m e : Int) : ℚ := (m : ℚ) * (10 : ℚ) ^ e

/-- Strip factors of ten from a decimal mantissa, moving them into the
exponent, so that equal decimals have equal representations.  The fuel bound
exceeds the digit count of every mantissa the parser can produce from inputs
of interest. -/
def stripTens : Nat → Int → Int → Int × Int
  | 0, m, e => (m, e)
  | fuel + 1, m, e =>
    if m ≠ 0 ∧ m % 10 = 0 then stripTens fuel (m / 10) (e + 1) else (m, e)

/-- The canonical modelled float of value `m * 10 ^ e`. -/
def mkFloat (m e : Int) : PyVal :=
  if m = 0 then .float 0 0
  else
    let p := stripTens 60 m e
    .float p.1 p.2

/-- A Python exception, as raised by the modelled code paths. -/
inductive PyErr where
  | typeError : String → PyErr
  | attributeError : String → PyErr
  | nameError : String → PyErr
  | valueError : String → PyErr
  | indexError : String → PyErr
  deriving DecidableEq, Inhabited

/-- The `str(e)` of a modelled exception (used when code interpolates a caught
exception into an f-string). -/
def pyErrStr : PyErr → String
  | .typeError m => m
  | .attributeError m => m
  | .nameError n => "name " ++ n ++ " is not defined"
  | .valueError m => m
  | .indexError m => m

/-- First-match association-list lookup: the value bound to key `k`
(Python dicts have unique keys, so first match is the match). -/
def dlookup (k : String) : List (String × PyVal) → Option PyVal
  | [] => Option.none
  | (k', v) :: rest => if k' = k then some v else dlookup k rest

/-- Python dict assignment `d[k] = v`: replace the existing binding in place,
or append a new binding at the end (dict insertion order). -/
def dictSet : List (String × PyVal) → String → PyVal → List (String × PyVal)
  | [], k, v => [(k, v)]
  | (k', w) :: rest, k, v =>
    if k' = k then (k, v) :: rest else (k', w) :: dictSet rest k v

/-- Python `d.get(k, dflt)` on an entries list. -/
def pyDictGetD (d : List (String × PyVal)) (k : String) (dflt : PyVal) : PyVal :=
  (dlookup k d).getD dflt

/-- Look a key up in a `PyVal` that is expected to be a dict
(used only in theorem statements, to inspect records). -/
def getKey (v : PyVal) (k : String) : Option PyVal :=
  match v with
  | .dict d => dlookup k d
  | _ => Option.none

/-- Two-level key lookup, e.g. `processingMetadata.error`. -/
def getKey2 (v : PyVal) (k k' : String) : Option PyVal :=
  match getKey v k with
  | some w => getKey w k'
  | Option.none => Option.none

/-- Python truthiness of a value. -/
def pyTruthy : PyVal → Bool
  | .none => false
  | .bool b => b
  | .int n => n != 0
  | .float m _ => m != 0
  | .str s => s != ""
  | .list l => !l.isEmpty
  | .dict d => !d.isEmpty

/-- The Python type name of a value (used in exception messages). -/
def pyTypeName : PyVal → String
  | .none => "NoneType"
  | .bool _ => "bool"
  | .int _ => "int"
  | .float _ _ => "float"
  | .str _ => "str"
  | .list _ => "list"
  | .dict _ => "dict"

/-- The apostrophe character, used by Python `repr` of strings. -/
def pyQuote : String := String.singleton (Char.ofNat 39)

/-- Render a modelled Python float `m * 10 ^ e` the way Python prints a float
with a short decimal expansion. -/
def pyStrFloat (m e : Int) : String :=
  if 0 ≤ e then toString (m * (10 : Int) ^ e.toNat) ++ ".0"
  else
    let k := (-e).toNat
    let sign := if m < 0 then "-" else ""
    let a := m.natAbs
    let ip := a / 10 ^ k
    let fp := a % 10 ^ k
    let fpStr := toString fp
    let pad := String.mk (List.replicate (k - fpStr.length) (Char.ofNat 48))
    sign ++ toString ip ++ "." ++ pad ++ fpStr

mutual

/-- Python `repr` of a value. -/
def pyRepr : PyVal → String
  | .none => "None"
  | .bool true => "True"
  | .bool false => "False"
  | .int n => toString n
  | .float m e => pyStrFloat m e
  | .str s => pyQuote ++ s ++ pyQuote
  | .list xs => "[" ++ pyReprItems xs ++ "]"
  | .dict es => "\x7b" ++ pyReprEntries es ++ "\x7d"

/-- Comma-separated `repr`s of list items. -/
def pyReprItems : List PyVal → String
  | [] => ""
  | [x] => pyRepr x
  | x :: y :: rest => pyRepr x ++ ", " ++ pyReprItems (y :: rest)

/-- Comma-separated `repr`s of dict entries. -/
def pyReprEntries : List (String × PyVal) → String
  | [] => ""
  | [(k, v)] => pyQuote ++ k ++ pyQuote ++ ": " ++ pyRepr v
  | (k, v) :: e :: rest =>
    pyQuote ++ k ++ pyQuote ++ ": " ++ pyRepr v ++ ", " ++ pyReprEntries (e :: rest)

end

/-- Python `str` of a value (what an f-string interpolates). -/
def pyStr : PyVal → String
  | .str s => s
  | v => pyRepr v

/-- Whether `needle` occurs as a contiguous substring of `hay`. -/
def containsSubstr (needle hay : String) : Bool :=
  (List.range (hay.length + 1)).any
    (fun i => needle.toList.isPrefixOf (hay.toList.drop i))

/-- Python `needle in v` for a string needle: dict key test, list membership,
substring test; raises `TypeError` on non-iterables. -/
def pyContains (needle : String) : PyVal → Except PyErr Bool
  | .dict d => .ok (dlookup needle d).isSome
  | .list l => .ok (l.any (fun w => match w with | .str t => t = needle | _ => false))
  | .str s => .ok (containsSubstr needle s)
  | v => .error (.typeError ("argument of type " ++ pyTypeName v ++ " is not iterable"))

/-- Python `v[k] = w` for a string key: dict assignment; raises `TypeError`
otherwise. -/
def pySetItem (v : PyVal) (k : String) (w : PyVal) : Except PyErr PyVal :=
  match v with
  | .dict d => .ok (.dict (dictSet d k w))
  | .list _ => .error (.typeError "list indices must be integers or slices, not str")
  | other => .error (.typeError (pyTypeName other ++ " object does not support item assignment"))

/-- Python `v.get(k, dflt)`: dict lookup with default; raises `AttributeError`
on non-dicts (only dicts among the JSON values have a `get` method). -/
def pyGetAttrD (v : PyVal) (k : String) (dflt : PyVal) : Except PyErr PyVal :=
  match v with
  | .dict d => .ok (pyDictGetD d k dflt)
  | other => .error (.attributeError (pyTypeName other ++ " object has no attribute get"))

/-- Python `len(v)`; raises `TypeError` on values without a length. -/
def pyLen : PyVal → Except PyErr Nat
  | .str s => .ok s.length
  | .list l => .ok l.length
  | .dict d => .ok d.length
  | v => .error (.typeError ("object of type " ++ pyTypeName v ++ " has no len"))

/-- Python iteration `for item in v`: list items, string characters, dict keys;
raises `TypeError` otherwise. -/
def pyIterItems : PyVal → Except PyErr (List PyVal)
  | .list l => .ok l
  | .str s => .ok (s.toList.map (fun c => .str (String.singleton c)))
  | .dict d => .ok (d.map (fun p => PyVal.str p.1))
  | v => .error (.typeError (pyTypeName v ++ " object is not iterable"))

/-- Python `v[0]`. -/
def pyIndex0 : PyVal → Except PyErr PyVal
  | .list (x :: _) => .ok x
  | .list [] => .error (.indexError "list index out of range")
  | .str s =>
    match s.toList with
    | c :: _ => .ok (.str (String.singleton c))
    | [] => .error (.indexError "string index out of range")
  | v => .error (.typeError (pyTypeName v ++ " object is not subscriptable"))

/-! ## A model of `json.loads`

A recursive-descent parser for the JSON grammar accepted by Python `json.loads`
(strict mode): values are `null` / `true` / `false`, numbers (`0|[1-9]\d*`
integer part, optional fraction and exponent), double-quoted strings with the
standard escapes, arrays and objects.  Whitespace is space, tab, newline,
carriage return.  Duplicate object keys follow last-wins dict semantics.
The non-standard `NaN` / `Infinity` literals Python additionally accepts are
not modelled (no modelled claim involves them).  Error messages are the
leading phrase of the corresponding Python error message. -/

/-- JSON whitespace (as in Python `json`). -/
def jsonWs (c : Char) : Bool :=
  c = ' ' || c = '\t' || c = '\n' || c = '\r'

/-- Skip JSON whitespace. -/
def skipWs (l : List Char) : List Char :=
  l.dropWhile jsonWs

/-- Numeric value of a decimal digit character. -/
def digitVal (c : Char) : Nat := c.toNat - 48

/-- Natural number denoted by a digit string. -/
def natOfDigits (ds : List Char) : Nat :=
  ds.foldl (fun a c => a * 10 + digitVal c) 0

/-- Hexadecimal value of a hex digit character, if any. -/
def hexVal (c : Char) : Option Nat :=
  if c.isDigit then some (c.toNat - 48)
  else if 97 ≤ c.toNat && c.toNat ≤ 102 then some (c.toNat - 87)
  else if 65 ≤ c.toNat && c.toNat ≤ 70 then some (c.toNat - 55)
  else Option.none

/-- Parse the body of a JSON string (after the opening quote), returning the
decoded characters and the remaining input. -/
def parseStrBody : List Char → List Char → Except String (List Char × List Char)
  | _, [] => .error "Unterminated string starting at"
  | acc, '\\' :: '"' :: r => parseStrBody ('"' :: acc) r
  | acc, '\\' :: '\\' :: r => parseStrBody ('\\' :: acc) r
  | acc, '\\' :: '/' :: r => parseStrBody ('/' :: acc) r
  | acc, '\\' :: 'b' :: r => parseStrBody (Char.ofNat 8 :: acc) r
  | acc, '\\' :: 'f' :: r => parseStrBody (Char.ofNat 12 :: acc) r
  | acc, '\\' :: 'n' :: r => parseStrBody ('\n' :: acc) r
  | acc, '\\' :: 'r' :: r => parseStrBody ('\r' :: acc) r
  | acc, '\\' :: 't' :: r => parseStrBody ('\t' :: acc) r
  | acc, '\\' :: 'u' :: a :: b :: c :: d :: r =>
    match hexVal a, hexVal b, hexVal c, hexVal d with
    | some x, some y, some z, some w =>
      parseStrBody (Char.ofNat (((x * 16 + y) * 16 + z) * 16 + w) :: acc) r
    | _, _, _, _ => .error "Invalid \\uXXXX escape"
  | _, '\\' :: _ => .error "Invalid \\escape"
  | acc, '"' :: r => .ok (acc.reverse, r)
  | acc, c :: r =>
    if c.toNat < 32 then .error "Invalid control character"
    else parseStrBody (c :: acc) r

/-- Digits of an exponent part; an exponent marker not followed by digits is
not part of the number (mirrors the `json` number regex), in which case the
input `orig` from before the marker is restored. -/
def expDigits (orig r : List Char) (pos : Bool) : Option (Bool × Nat) × List Char :=
  let ds := r.takeWhile Char.isDigit
  if ds.isEmpty then (Option.none, orig)
  else ((pos, natOfDigits ds), r.dropWhile Char.isDigit)

/-- Parse a JSON number (first character is `-` or a digit). -/
def parseNumber (l : List Char) : Except String (PyVal × List Char) :=
  let (neg, l1) :=
    match l with
    | '-' :: r => (true, r)
    | _ => (false, l)
  match l1 with
  | [] => .error "Expecting value"
  | c :: _ =>
    if !c.isDigit then .error "Expecting value"
    else
      let (ipart, r1) :=
        if c = '0' then ([c], l1.drop 1)
        else (l1.takeWhile Char.isDigit, l1.dropWhile Char.isDigit)
      let (fpart, r2) :=
        match r1 with
        | '.' :: r =>
          let ds := r.takeWhile Char.isDigit
          if ds.isEmpty then ([], r1) else (ds, r.dropWhile Char.isDigit)
        | _ => ([], r1)
      let (epart, r3) :=
        match r2 with
        | 'e' :: '+' :: r => expDigits r2 r true
        | 'e' :: '-' :: r => expDigits r2 r false
        | 'e' :: r => expDigits r2 r true
        | 'E' :: '+' :: r => expDigits r2 r true
        | 'E' :: '-' :: r => expDigits r2 r false
        | 'E' :: r => expDigits r2 r true
        | _ => (Option.none, r2)
      if fpart.isEmpty ∧ epart = Option.none then
        .ok (.int (if neg then -(natOfDigits ipart : Int) else (natOfDigits ipart : Int)), r3)
      else
        let mant : Nat := natOfDigits (ipart ++ fpart)
        let e0 : Int := -(fpart.length : Int)
        let e1 : Int :=
          match epart with
          | some (true, e) => e0 + e
          | some (false, e) => e0 - e
          | Option.none => e0
        let sm : Int := if neg then -(mant : Int) else (mant : Int)
        .ok (mkFloat sm e1, r3)

mutual

/-- Parse one JSON value.  The fuel argument strictly dominates the nesting
depth; `json_loads` supplies `length + 1`, which is always sufficient. -/
def parseValue : Nat → List Char → Except String (PyVal × List Char)
  | 0, _ => .error "Expecting value"
  | fuel + 1, l =>
    match l with
    | [] => .error "Expecting value"
    | '"' :: rest =>
      match parseStrBody [] rest with
      | .ok (cs, r) => .ok (.str (String.mk cs), r)
      | .error e => .error e
    | '\x7b' :: rest => parseObjStart fuel (skipWs rest)
    | '[' :: rest => parseArrStart fuel (skipWs rest)
    | 'n' :: rest =>
      match rest with
      | 'u' :: 'l' :: 'l' :: r => .ok (.none, r)
      | _ => .error "Expecting value"
    | 't' :: rest =>
      match rest with
      | 'r' :: 'u' :: 'e' :: r => .ok (.bool true, r)
      | _ => .error "Expecting value"
    | 'f' :: rest =>
      match rest with
      | 'a' :: 'l' :: 's' :: 'e' :: r => .ok (.bool false, r)
      | _ => .error "Expecting value"
    | c :: _ =>
      if c = '-' || c.isDigit then parseNumber l
      else .error "Expecting value"

/-- Parse an object body right after `\x7b` (whitespace skipped): either the
closing brace or the first member. -/
def parseObjStart : Nat → List Char → Except String (PyVal × List Char)
  | 0, _ => .error "Expecting value"
  | fuel + 1, l =>
    match l with
    | '\x7d' :: rest => .ok (.dict [], rest)
    | _ => parseMembers fuel l []

/-- Parse object members starting at a property name, accumulating the entries
(last occurrence of a duplicate key wins, as in Python). -/
def parseMembers : Nat → List Char → List (String × PyVal) →
    Except String (PyVal × List Char)
  | 0, _, _ => .error "Expecting value"
  | fuel + 1, l, acc =>
    match l with
    | '"' :: rest =>
      match parseStrBody [] rest with
      | .error e => .error e
      | .ok (kcs, r1) =>
        match skipWs r1 with
        | ':' :: r2 =>
          match parseValue fuel (skipWs r2) with
          | .error e => .error e
          | .ok (v, r3) =>
            let acc' := dictSet acc (String.mk kcs) v
            match skipWs r3 with
            | ',' :: r4 => parseMembers fuel (skipWs r4) acc'
            | '\x7d' :: r4 => .ok (.dict acc', r4)
            | _ => .error "Expecting comma delimiter"
        | _ => .error "Expecting colon delimiter"
    | _ => .error "Expecting property name enclosed in double quotes"

/-- Parse an array body right after `[` (whitespace skipped). -/
def parseArrStart : Nat → List Char → Except String (PyVal × List Char)
  | 0, _ => .error "Expecting value"
  | fuel + 1, l =>
    match l with
    | ']' :: rest => .ok (.list [], rest)
    | _ => parseElems fuel l []

/-- Parse array elements, accumulating in reverse. -/
def parseElems : Nat → List Char → List PyVal →
    Except String (PyVal × List Char)
  | 0, _, _ => .error "Expecting value"
  | fuel + 1, l, acc =>
    match parseValue fuel l with
    | .error e => .error e
    | .ok (v, r1) =>
      match skipWs r1 with
      | ',' :: r2 => parseElems fuel (skipWs r2) (v :: acc)
      | ']' :: r2 => .ok (.list (v :: acc).reverse, r2)
      | _ => .error "Expecting comma delimiter"

end

/-- Model of Python `json.loads`: parse one JSON document surrounded by
optional whitespace; anything left over is an error (`Extra data`). -/
def json_loads (s : String) : Except String PyVal :=
  let l := skipWs s.toList
  match parseValue (l.length + 1) l with
  | .error e => .error e
  | .ok (v, rest) =>
    if (skipWs rest).isEmpty then .ok v else .error "Extra data"


/-! ## Text-to-JSON extraction

Model of the candidate-extraction logic shared verbatim by
`openai_ocr.py` (lines 141-166) and `mistral_ocr.py` (lines 312-337):

1. `re.findall` with pattern three-backticks `(?:json)?\s*([\s\S]*?)\s*`
   three-backticks, taking the first match's group;
2. otherwise `re.findall` with the greedy brace pattern, taking the first
   match (first opening brace through the last closing brace);
3. otherwise the stripped text;
followed by stripping residual leading/trailing backtick runs.

The two regex searches are implemented directly: for the fence pattern the
leftmost match starts at the first three-backtick occurrence from which a
later three-backtick occurrence is reachable, the optional `json` tag and the
greedy leading `\s*` consume maximally, and the lazy group ends at the start
of the maximal whitespace run preceding the nearest closing fence. -/

/-- The backtick character. -/
def tickChar : Char := Char.ofNat 96

/-- The opening-brace character. -/
def obraceChar : Char := Char.ofNat 123

/-- The closing-brace character. -/
def cbraceChar : Char := Char.ofNat 125

/-- Regex `\s` / `str.strip` whitespace (ASCII). -/
def pyWs (c : Char) : Bool :=
  c = ' ' || c = '\t' || c = '\n' || c = '\r' || c = Char.ofNat 11 || c = Char.ofNat 12

/-- Python `str.strip()` on a character list. -/
def pyStripL (l : List Char) : List Char :=
  ((l.dropWhile pyWs).reverse.dropWhile pyWs).reverse

/-- Does the list begin with three backticks? -/
def startsWithTicks : List Char → Bool
  | a :: b :: c :: _ => a = tickChar && b = tickChar && c = tickChar
  | _ => false

/-- Can the lazy group end here: whitespace (possibly none) followed by a
closing fence? -/
def fenceClosePossible (l : List Char) : Bool :=
  startsWithTicks (l.dropWhile pyWs)

/-- Scan for the end of the lazy group, accumulating its content. -/
def fenceGroup (acc : List Char) : List Char → Option (List Char)
  | [] => Option.none
  | c :: rest =>
    if fenceClosePossible (c :: rest) then some acc.reverse
    else fenceGroup (c :: acc) rest

/-- Attempt the fence pattern right after an opening three-backtick run:
consume an optional `json` tag, the greedy `\s*`, then the lazy group. -/
def tryFenceAt (after3 : List Char) : Option (List Char) :=
  let afterTag := if "json".toList.isPrefixOf after3 then after3.drop 4 else after3
  fenceGroup [] (afterTag.dropWhile pyWs)

/-- Group of the leftmost fenced-block match, if any. -/
def findFenceGroup : List Char → Option (List Char)
  | [] => Option.none
  | c :: rest =>
    match (if startsWithTicks (c :: rest) then tryFenceAt (rest.drop 2) else Option.none) with
    | some g => some g
    | Option.none => findFenceGroup rest

/-- First match of the greedy brace pattern: the span from the first opening
brace through the last closing brace, when the latter lies beyond the
former. -/
def braceGroup (l : List Char) : Option (List Char) :=
  let afterOpen := l.dropWhile (fun c => c ≠ obraceChar)
  match afterOpen with
  | [] => Option.none
  | _ :: _ =>
    let upToClose := (afterOpen.reverse.dropWhile (fun c => c ≠ cbraceChar)).reverse
    match upToClose with
    | [] => Option.none
    | _ :: _ => some upToClose

/-- The final cleanup: `lstrip` backticks when the text starts with a fence
marker, then `rstrip` backticks when it ends with one. -/
def fenceCleanup (r : List Char) : List Char :=
  let r1 := if startsWithTicks r then r.dropWhile (fun c => c = tickChar) else r
  if startsWithTicks r1.reverse then (r1.reverse.dropWhile (fun c => c = tickChar)).reverse
  else r1

/-- The whole candidate-extraction step applied to the raw model answer
(`result = raw_content.strip()` followed by the three-stage search and the
cleanup). -/
def extract_json (raw : String) : String :=
  let result0 := pyStripL raw.toList
  let result1 :=
    match findFenceGroup result0 with
    | some g => pyStripL g
    | Option.none =>
      match braceGroup result0 with
      | some b => pyStripL b
      | Option.none => pyStripL result0
  (fenceCleanup result1).asString

/-! ## Report renderer

Model of `generate_markdown_from_extraction`, defined identically in
`mistral_ocr.py` (lines 20-121) and `ms_azure_ocr.py` (lines 19-120).
The markdown is assembled as a list of lines and joined with newlines. -/

/-- Python `x if x else` fallback to `N/A`, interpolated into an f-string. -/
def scalarOrNA (v : PyVal) : String :=
  if pyTruthy v then pyStr v else "N/A"

/-- Is the value the string `N/A` (Python `x != 'N/A'` test)? -/
def isNAStr : PyVal → Bool
  | .str s => s == "N/A"
  | _ => false

/-- Python conditional on the `N/A` sentinel, interpolated into an f-string. -/
def totalsValStr (v : PyVal) : String :=
  if isNAStr v then "N/A" else pyStr v

/-- Python `s.split` at `T`, first part, hyphens replaced by slashes. -/
def slashifyBeforeT (s : String) : String :=
  ((s.toList.takeWhile (fun c => c ≠ 'T')).map
    (fun c => if c = '-' then '/' else c)).asString

/-- The displayed form of a date value: `N/A` when falsy; for a string
containing `T`, the part before `T` with hyphens replaced by slashes;
otherwise `str()` of the value. -/
def formatDateStr (v : PyVal) : String :=
  if pyTruthy v then
    match v with
    | .str s => if containsSubstr "T" s then slashifyBeforeT s else s
    | other => pyStr other
  else "N/A"

/-- One line-item table row (`item.get` raises on non-dict items). -/
def lineItemRow (item : PyVal) : Except PyErr String := do
  let description ← pyGetAttrD item "description" (.str "")
  let quantity ← pyGetAttrD item "quantity" (.str "")
  let unit_price ← pyGetAttrD item "unitPrice" (.str "")
  let amount ← pyGetAttrD item "amount" (.str "")
  .ok ("| " ++ pyStr description ++ " | " ++ pyStr quantity ++ " | " ++
    pyStr unit_price ++ " | " ++ pyStr amount ++ " |")

/-- The Line Items section body: a table when `lineItems` is truthy with
positive length, the fixed sentence otherwise. -/
def lineItemsSection (data : List (String × PyVal)) : Except PyErr (List String) := do
  let line_items := pyDictGetD data "lineItems" (.list [])
  if pyTruthy line_items then do
    let n ← pyLen line_items
    if n > 0 then do
      let items ← pyIterItems line_items
      let rows ← items.mapM lineItemRow
      .ok (["| Description | Quantity | Unit Price | Amount |",
            "| ----------- | -------- | ---------- | ------ |"] ++ rows)
    else .ok ["No line items found."]
  else .ok ["No line items found."]

/-- One numbered handwritten-note line. -/
def handwrittenNoteLine (i : Nat) (note : PyVal) : Except PyErr String := do
  let text ← pyGetAttrD note "text" (.str "")
  .ok (toString i ++ ". " ++ pyStr text)

/-- Numbered note lines starting at index `i` (Python `enumerate(notes, 1)`). -/
def numberNotes : Nat → List PyVal → Except PyErr (List String)
  | _, [] => .ok []
  | i, note :: rest => do
    let line ← handwrittenNoteLine i note
    let more ← numberNotes (i + 1) rest
    .ok (line :: more)

/-- The Handwritten Notes section: present only when `handwrittenNotes` is
truthy with positive length. -/
def handwrittenSection (data : List (String × PyVal)) : Except PyErr (List String) := do
  let handwritten_notes := pyDictGetD data "handwrittenNotes" (.list [])
  if pyTruthy handwritten_notes then do
    let n ← pyLen handwritten_notes
    if n > 0 then do
      let notes ← pyIterItems handwritten_notes
      let lines ← numberNotes 1 notes
      .ok (["", "## Handwritten Notes"] ++ lines)
    else .ok []
  else .ok []

/-- The full rendered markdown, as its list of lines. -/
def generate_markdown_lines (data : List (String × PyVal)) :
    Except PyErr (List String) := do
  let vendor_name := pyDictGetD data "vendorName" (.str "")
  let vendor_address := pyDictGetD data "vendorAddress" (.str "")
  let vendor_contact := pyDictGetD data "vendorContact" (.str "")
  let invoice_number := pyDictGetD data "invoiceNumber" (.str "")
  let invoice_date := pyDictGetD data "invoiceDate" .none
  let due_date := pyDictGetD data "dueDate" .none
  let itemsSection ← lineItemsSection data
  let subtotal := pyDictGetD data "subtotalAmount" (.str "N/A")
  let tax := pyDictGetD data "taxAmount" (.str "N/A")
  let discount := pyDictGetD data "discountAmount" (.str "N/A")
  let total := pyDictGetD data "totalAmount" (.str "N/A")
  let notesSection ← handwrittenSection data
  .ok (["# Invoice Extraction Result", "",
        "## Vendor Information",
        "- **Vendor Name**: " ++ scalarOrNA vendor_name,
        "- **Vendor Address**: " ++ scalarOrNA vendor_address,
        "- **Vendor Contact**: " ++ scalarOrNA vendor_contact,
        "",
        "## Invoice Details",
        "- **Invoice Number**: " ++ scalarOrNA invoice_number,
        "- **Invoice Date**: " ++ formatDateStr invoice_date,
        "- **Due Date**: " ++ formatDateStr due_date,
        "",
        "## Line Items",
        ""] ++ itemsSection ++ [""] ++
       ["## Totals",
        "- **Subtotal**: " ++ totalsValStr subtotal,
        "- **Tax**: " ++ totalsValStr tax,
        "- **Discount**: " ++ totalsValStr discount,
        "- **Total**: " ++ totalsValStr total] ++ notesSection)

/-- Model of `generate_markdown_from_extraction`: the lines joined with newlines. -/
def generate_markdown_from_extraction (data : List (String × PyVal)) :
    Except PyErr String := do
  let lines ← generate_markdown_lines data
  .ok (String.intercalate "\n" lines)

/-! ## Required-field defaulting

The validation preamble shared verbatim by `openai_ocr.py` (lines 174-191)
and `mistral_ocr.py` (lines 345-362). -/

/-- The required fields checked explicitly. -/
def required_fields : List String := ["vendorName", "invoiceNumber", "totalAmount"]

/-- Python comprehension keeping the required fields absent from the parse result. -/
def missingFields : List String → PyVal → Except PyErr (List String)
  | [], _ => .ok []
  | f :: fs, v => do
    let b ← pyContains f v
    let rest ← missingFields fs v
    if b then .ok rest else .ok (f :: rest)

/-- The default written for a missing required field
(`0` for `totalAmount`, `Unknown` otherwise). -/
def requiredDefault (f : String) : PyVal :=
  if f = "totalAmount" then .int 0 else .str "Unknown"

/-- Python loop writing the default for each missing required field. -/
def applyDefaults : List String → PyVal → Except PyErr PyVal
  | [], v => .ok v
  | f :: fs, v => do
    let v' ← pySetItem v f (requiredDefault f)
    applyDefaults fs v'

/-- Python guard inserting an empty list when the key is absent. -/
def ensureListField (v : PyVal) (f : String) : Except PyErr PyVal := do
  let b ← pyContains f v
  if b then .ok v else pySetItem v f (.list [])

namespace OpenaiOcr

/-- The record produced on a JSON decode failure
(`openai_ocr.py` lines 195-205). -/
def decode_error_record (e : String) : PyVal :=
  .dict [("vendorName", .str "Could not extract vendor name"),
         ("invoiceNumber", .str "Unknown"),
         ("totalAmount", .int 0),
         ("lineItems", .list []),
         ("handwrittenNotes", .list []),
         ("error", .str ("Failed to parse JSON from OpenAI response: " ++ e))]

/-- The validation step of `extract_invoice_data` (`openai_ocr.py` lines
169-205): decode the candidate, default the required fields and the two list
fields; a decode failure yields the decode-failure record. -/
def validate (result : String) : Except PyErr PyVal :=
  match json_loads result with
  | .error e => .ok (decode_error_record e)
  | .ok parsed_json => do
    let missing ← missingFields required_fields parsed_json
    let pj ← applyDefaults missing parsed_json
    let pj2 ← ensureListField pj "lineItems"
    let pj3 ← ensureListField pj2 "handwrittenNotes"
    .ok pj3

/-- The record carried by the `json.dumps` result of `extract_invoice_data`
for a given candidate text: the validation step, with the function-level
`except Exception` fallback of lines 247-257. -/
def normalize (result : String) : PyVal :=
  match validate result with
  | .ok v => v
  | .error e =>
    .dict [("vendorName", .str ""), ("invoiceNumber", .str ""),
           ("totalAmount", .int 0), ("lineItems", .list []),
           ("handwrittenNotes", .list []),
           ("error", .str ("Error processing document with OpenAI: " ++ pyErrStr e))]

end OpenaiOcr

namespace MistralOcr

/-- The fixed confidence-scores dict synthesized for every Mistral record. -/
def confidence_scores : PyVal :=
  .dict [("overall", .int 80), ("vendorInfo", .int 80), ("invoiceDetails", .int 80),
         ("lineItems", .int 80), ("totals", .int 80), ("handwrittenNotes", .int 50),
         ("fieldSpecific", .dict [])]

/-- The `processingMetadata` dict with the clock reading `now` (the value of
`datetime.now().isoformat()`, passed in explicitly) and an optional error. -/
def processing_metadata (now : String) (err : Option String) : PyVal :=
  .dict ([("ocrEngine", .str "mistral"), ("processingTime", .int 0),
          ("processingTimestamp", .str now),
          ("documentClassification", .str "invoice")] ++
         (match err with | some e => [("error", PyVal.str e)] | Option.none => []))

/-- The entries of the `error_response` shape before its final
`processingMetadata` key. -/
def error_core : List (String × PyVal) :=
  [("vendorName", .str ""), ("vendorAddress", .str ""), ("vendorContact", .str ""),
   ("clientName", .str ""), ("clientAddress", .str ""), ("invoiceNumber", .str ""),
   ("totalAmount", .int 0), ("currency", .str ""), ("paymentTerms", .str ""),
   ("paymentMethod", .str ""), ("lineItems", .list []), ("handwrittenNotes", .list []),
   ("additionalInfo", .str ""), ("confidenceScores", confidence_scores),
   ("layoutData", .list [])]

/-- The entries of the `error_response` shape used by the decode-failure
handler (lines 410-441) and by the `except Exception` handler (lines
532-563), which build the same record up to the error message.  Note the
record has no `invoiceDate`, `dueDate`, `subtotalAmount`, `taxAmount`
entries. -/
def error_entries (e : String) (now : String) : List (String × PyVal) :=
  error_core ++ [("processingMetadata", processing_metadata now (some e))]

/-- Render the markdown of a record and attach it as `markdownOutput`
(`markdown_output = generate_markdown_from_extraction(r); r["markdownOutput"]
= markdown_output`). -/
def withMarkdown (entries : List (String × PyVal)) : Except PyErr PyVal := do
  let md ← generate_markdown_from_extraction entries
  .ok (.dict (dictSet entries "markdownOutput" (.str md)))

/-- The `standardized_response` entries (lines 365-399) built from the
defaulted parse result `pj`; `processingMetadata` is the final key and has no
error entry. -/
def standardized_entries (pj : PyVal) (now : String) :
    Except PyErr (List (String × PyVal)) := do
  let vendorName ← pyGetAttrD pj "vendorName" (.str "")
  let vendorAddress ← pyGetAttrD pj "vendorAddress" (.str "")
  let vendorContact ← pyGetAttrD pj "vendorContact" (.str "")
  let clientName ← pyGetAttrD pj "clientName" (.str "")
  let clientAddress ← pyGetAttrD pj "clientAddress" (.str "")
  let invoiceNumber ← pyGetAttrD pj "invoiceNumber" (.str "")
  let invoiceDate ← pyGetAttrD pj "invoiceDate" .none
  let dueDate ← pyGetAttrD pj "dueDate" .none
  let totalAmount ← pyGetAttrD pj "totalAmount" (.int 0)
  let subtotalAmount ← pyGetAttrD pj "subtotalAmount" (.int 0)
  let taxAmount ← pyGetAttrD pj "taxAmount" (.int 0)
  let currency ← pyGetAttrD pj "currency" (.str "")
  let paymentTerms ← pyGetAttrD pj "paymentTerms" (.str "")
  let paymentMethod ← pyGetAttrD pj "paymentMethod" (.str "")
  let lineItems ← pyGetAttrD pj "lineItems" (.list [])
  let handwrittenNotes ← pyGetAttrD pj "handwrittenNotes" (.list [])
  let additionalInfo ← pyGetAttrD pj "additionalInfo" (.str "")
  .ok [("vendorName", vendorName), ("vendorAddress", vendorAddress),
       ("vendorContact", vendorContact), ("clientName", clientName),
       ("clientAddress", clientAddress), ("invoiceNumber", invoiceNumber),
       ("invoiceDate", invoiceDate), ("dueDate", dueDate),
       ("totalAmount", totalAmount), ("subtotalAmount", subtotalAmount),
       ("taxAmount", taxAmount), ("currency", currency),
       ("paymentTerms", paymentTerms), ("paymentMethod", paymentMethod),
       ("lineItems", lineItems), ("handwrittenNotes", handwrittenNotes),
       ("additionalInfo", additionalInfo),
       ("confidenceScores", confidence_scores),
       ("layoutData", .list []),
       ("processingMetadata", processing_metadata now Option.none)]

/-- The standardization of a successfully decoded parse result:
required-field defaulting, the two list fields, the standardized response,
and its markdown. -/
def standardize (parsed_json : PyVal) (now : String) : Except PyErr PyVal := do
  let missing ← missingFields required_fields parsed_json
  let pj ← applyDefaults missing parsed_json
  let pj2 ← ensureListField pj "lineItems"
  let pj3 ← ensureListField pj2 "handwrittenNotes"
  let entries ← standardized_entries pj3 now
  withMarkdown entries

/-- The validation step of `extract_invoice_data` (`mistral_ocr.py` lines
339-447): decode the candidate and standardize, or produce the decode-failure
record; exceptions other than the decode failure escape to the function-level
handler. -/
def validate (result now : String) : Except PyErr PyVal :=
  match json_loads result with
  | .error e =>
    withMarkdown (error_entries ("Failed to parse JSON from Mistral response: " ++ e) now)
  | .ok parsed_json => standardize parsed_json now

/-- The record built by the function-level `except Exception` handler
(lines 529-569).  Its markdown renders a record whose `lineItems` and
`handwrittenNotes` are literal empty lists, so rendering cannot fail; the
fallback arm is dead code. -/
def general_error (msg now : String) : PyVal :=
  match withMarkdown (error_entries ("Mistral API error: " ++ msg) now) with
  | .ok v => v
  | .error _ => .none

/-- The record returned by `extract_invoice_data` for a given candidate text
and clock reading `now`: validation, with any escaping exception converted by
the function-level handler. -/
def normalize (result now : String) : PyVal :=
  match validate result now with
  | .ok v => v
  | .error e => general_error (pyErrStr e) now

end MistralOcr

namespace MsAzureOcr

/-- Python `float()` on a string of decimal digits and dots (the only shape
`format_currency` can feed it): valid when there is at least one digit and at
most one dot. -/
def floatOfDigitsDots (l : List Char) : Option PyVal :=
  if !(l.all (fun c => c.isDigit || c = '.')) then Option.none
  else if (l.filter (fun c => c = '.')).length ≥ 2 then Option.none
  else
    let ds := l.filter Char.isDigit
    if ds.isEmpty then Option.none
    else
      let ip := l.takeWhile (fun c => c ≠ '.')
      let fp := (l.dropWhile (fun c => c ≠ '.')).drop 1
      some (mkFloat ((natOfDigits (ip ++ fp) : Nat) : Int) (-(fp.length : Int)))

/-- Model of `format_currency` (`ms_azure_ocr.py` lines 122-135): `None` on falsy
input, else keep only digits, dots and commas of `str(value)`, drop the
commas and convert with `float`, returning `None` when conversion fails. -/
def format_currency (currency_value : PyVal) : Option PyVal :=
  if !pyTruthy currency_value then Option.none
  else
    let value_str := pyStr currency_value
    let kept := value_str.toList.filter (fun c => c.isDigit || c = '.' || c = ',')
    let cleaned := kept.filter (fun c => c ≠ ',')
    floatOfDigitsDots cleaned

/-- The fixed polling retry count (`max_retries`, line 240). -/
def max_retries : Nat := 10

/-- The fixed delay in seconds between polls (`retry_delay`, line 241). -/
def retry_delay : Nat := 1

/-- Python test `result.get` of `status` equal to `s`, for a dict result. -/
def statusIs (r : PyVal) (s : String) : Bool :=
  match r with
  | .dict d =>
    match dlookup "status" d with
    | some (.str t) => t = s
    | _ => false
  | _ => false

/-- The error detail extracted from a `failed` result (lines 253-255). -/
def failed_detail (result : PyVal) : Except PyErr String := do
  let b ← pyContains "errors" result
  let errsV := match result with | .dict d => pyDictGetD d "errors" .none | _ => PyVal.none
  if b ∧ pyTruthy errsV then do
    let first ← pyIndex0 errsV
    let m ← pyGetAttrD first "message" (.str "Unknown error")
    .ok (pyStr m)
  else .ok "Unknown error"

/-- The polling loop of `extract_invoice_data` (lines 244-263): `poll k` is
the JSON body returned by the k-th GET of the operation location.  Returns
the number of polls made, the number of `time.sleep(retry_delay)` calls, and
the outcome: the result on `succeeded`, or the raised `ValueError`
(analysis failure, or the timeout after the retries are exhausted without a
terminal status). -/
def poll_loop_aux (poll : Nat → PyVal) :
    Nat → Nat → Nat → Nat → Nat × Nat × Except PyErr PyVal
  | 0, _, polls, sleeps =>
    (polls, sleeps, .error (.valueError "Azure Document Intelligence analysis timed out"))
  | fuel + 1, k, polls, sleeps =>
    match poll k with
    | .dict d =>
      if statusIs (.dict d) "succeeded" then (polls + 1, sleeps, .ok (.dict d))
      else if statusIs (.dict d) "failed" then
        match failed_detail (.dict d) with
        | .ok detail =>
          (polls + 1, sleeps,
            .error (.valueError ("Azure Document Intelligence analysis failed: " ++ detail)))
        | .error e => (polls + 1, sleeps, .error e)
      else poll_loop_aux poll fuel (k + 1) (polls + 1) (sleeps + 1)
    | other =>
      (polls + 1, sleeps,
        .error (.attributeError (pyTypeName other ++ " object has no attribute get")))

/-- The polling loop run with the fixed constants. -/
def poll_loop (poll : Nat → PyVal) : Nat × Nat × Except PyErr PyVal :=
  poll_loop_aux poll max_retries 0 0 0

/-- The module-global value-name environment of `ms_azure_ocr.py` relevant to
the error handler: `None` is the only defined bare value name; in particular
the bare name `null` written at line 559 is undefined, so evaluating it
raises `NameError`. -/
def evalGlobalName (n : String) : Except PyErr PyVal :=
  if n = "None" then .ok .none else .error (.nameError n)

/-- The `except Exception` handler of `extract_invoice_data` (lines 529-568):
build `internal_error`, render its markdown, then evaluate the
`error_response` list display, whose `invoice_total` entry evaluates the bare
name `null`. -/
def error_handler (error_message : String) : Except PyErr PyVal := do
  let internal_error : List (String × PyVal) :=
    [("vendorName", .str "Error processing document"), ("vendorAddress", .str ""),
     ("vendorContact", .str ""), ("clientName", .str ""), ("clientAddress", .str ""),
     ("invoiceNumber", .str "Error"), ("totalAmount", .int 0), ("currency", .str ""),
     ("lineItems", .list []), ("handwrittenNotes", .list []),
     ("additionalInfo", .str ("Error: " ++ error_message))]
  let markdown_output ← generate_markdown_from_extraction internal_error
  let currency_symbol ← evalGlobalName "null"
  .ok (.list [.dict
    [("vendor_name", .dict [("value", .str "Error processing document")]),
     ("vendor_address", .dict [("value", .str "")]),
     ("customer_name", .dict [("value", .str "")]),
     ("customer_address", .dict [("value", .str "")]),
     ("invoice_id", .dict [("value", .str "Error")]),
     ("invoice_date", .dict [("value", .str "")]),
     ("invoice_total", .dict [("value",
        .dict [("amount", .int 0), ("currency_symbol", currency_symbol)])]),
     ("items", .list []),
     ("status", .str "error"),
     ("error", .str ("Azure Document Intelligence error: " ++ error_message)),
     ("markdownOutput", .str markdown_output),
     ("auto_navigation", .bool false)]])

end MsAzureOcr

namespace Main

/-- An uploaded file as seen by the FastAPI endpoints of `main.py`. -/
structure UploadedFile where
  filename : String
  content_type : String
  content : List Nat

/-- The external collaborators of the `/openai-ocr` endpoint:
`convert_from_bytes` returning the rasterized pages (as PNG byte strings) of
a PDF, and the OpenAI adapter `openai_extract` returning the JSON text for
given bytes and MIME type (or raising). -/
structure OcrEnv where
  convert_from_bytes : List Nat → List (List Nat)
  openai_extract : List Nat → String → Except PyErr String

/-- What an endpoint invocation produces: a JSON response body, or an
`HTTPException` escaping to the framework. -/
inductive PipeOut where
  | ok : PyVal → PipeOut
  | httpExc : Nat → String → PipeOut

/-- Starlette `str(HTTPException(status, detail))`. -/
def strHTTPExc (status : Nat) (detail : String) : String :=
  toString status ++ ": " ++ detail

/-- ASCII lower-casing of one character (model of `str.lower`). -/
def charToLower (c : Char) : Char :=
  if 65 ≤ c.toNat ∧ c.toNat ≤ 90 then Char.ofNat (c.toNat + 32) else c

/-- Python expression taking the filename extension:
the part after the last dot, lower-cased. -/
def file_ext (filename : String) : String :=
  if containsSubstr "." filename then
    (((filename.toList.reverse.takeWhile (fun c => c ≠ '.')).reverse).map
      charToLower).asString
  else ""

/-- Python truncation of a long string to 200 characters plus an ellipsis. -/
def pyTruncate200 (s : String) : String :=
  if s.length > 200 then (s.toList.take 200).asString ++ "..." else s

/-- The OpenAI branch of `main.py` after preprocessing (lines 150-193):
call the adapter, parse its JSON text, and map failures to structured
responses. -/
def openai_branch (env : OcrEnv) (processed : List Nat) (ptype : String) :
    PipeOut × Nat :=
  match env.openai_extract processed ptype with
  | .error service_error =>
    (.ok (.dict [("vendorName", .str "Error occurred"), ("invoiceNumber", .str "Error"),
       ("totalAmount", .int 0), ("currency", .str "Unknown"),
       ("lineItems", .list []), ("handwrittenNotes", .list []),
       ("error", .str ("OpenAI OCR service error: " ++ pyErrStr service_error)),
       ("status", .str "error"), ("confidence", .int 0)]), 1)
  | .ok extracted_data =>
    match json_loads extracted_data with
    | .ok json_data => (.ok json_data, 1)
    | .error e =>
      (.ok (.dict [("vendorName", .str "Could not extract vendor name"),
         ("invoiceNumber", .str "Unknown"), ("totalAmount", .int 0),
         ("lineItems", .list []), ("handwrittenNotes", .list []),
         ("error", .str ("Failed to parse OpenAI response: " ++ e)),
         ("rawText", .str (pyTruncate200 extracted_data))]), 1)

/-- The `/openai-ocr` endpoint (`main.py` lines 86-198), instrumented with
the number of adapter calls made.  A PDF is rasterized first (page 1 only);
when zero pages come back, the inner `HTTPException` is caught by the
`except Exception as pdf_err` clause, re-wrapped, and re-raised past the
outer `except HTTPException` clause. -/
def process_with_openai (env : OcrEnv) (file : UploadedFile) : PipeOut × Nat :=
  if file.content.length = 0 then (.httpExc 400 "Empty file", 0)
  else if file.content_type = "application/pdf" ∨ file_ext file.filename = "pdf" then
    match env.convert_from_bytes file.content with
    | [] =>
      (.httpExc 400 ("Error converting PDF: " ++
        strHTTPExc 400 "Could not convert PDF to image (no pages found)"), 0)
    | first_page :: _ => openai_branch env first_page "image/png"
  else openai_branch env file.content file.content_type

end Main

/-- The pure form of `if f not in d: d[f] = w` on a dict. -/
def ensureL (d : List (String × PyVal)) (f : String) (w : PyVal) :
    List (String × PyVal) :=
  if (dlookup f d).isSome then d else dictSet d f w

/-- The pure effect of the required-field and list-field defaulting on a
dict's entries. -/
def dictFix (d : List (String × PyVal)) : List (String × PyVal) :=
  ensureL (ensureL
    ((required_fields.filter (fun f => (dlookup f d).isNone)).foldl
      (fun acc f => dictSet acc f (requiredDefault f)) d)
    "lineItems" (.list [])) "handwrittenNotes" (.list [])

/-- The `standardized_response` entries before the final `processingMetadata`
key, for a dict parse result. -/
def mistralCore (d : List (String × PyVal)) : List (String × PyVal) :=
  [("vendorName", pyDictGetD d "vendorName" (.str "")),
   ("vendorAddress", pyDictGetD d "vendorAddress" (.str "")),
   ("vendorContact", pyDictGetD d "vendorContact" (.str "")),
   ("clientName", pyDictGetD d "clientName" (.str "")),
   ("clientAddress", pyDictGetD d "clientAddress" (.str "")),
   ("invoiceNumber", pyDictGetD d "invoiceNumber" (.str "")),
   ("invoiceDate", pyDictGetD d "invoiceDate" .none),
   ("dueDate", pyDictGetD d "dueDate" .none),
   ("totalAmount", pyDictGetD d "totalAmount" (.int 0)),
   ("subtotalAmount", pyDictGetD d "subtotalAmount" (.int 0)),
   ("taxAmount", pyDictGetD d "taxAmount" (.int 0)),
   ("currency", pyDictGetD d "currency" (.str "")),
   ("paymentTerms", pyDictGetD d "paymentTerms" (.str "")),
   ("paymentMethod", pyDictGetD d "paymentMethod" (.str "")),
   ("lineItems", pyDictGetD d "lineItems" (.list [])),
   ("handwrittenNotes", pyDictGetD d "handwrittenNotes" (.list [])),
   ("additionalInfo", pyDictGetD d "additionalInfo" (.str "")),
   ("confidenceScores", MistralOcr.confidence_scores),
   ("layoutData", .list [])]

/-- Blank out the `processingTimestamp` entry of a `processingMetadata`
dict. -/
def scrubMeta (v : PyVal) : PyVal :=
  match v with
  | .dict m =>
    .dict (m.map (fun p =>
      if p.1 = "processingTimestamp" then (p.1, PyVal.str "") else p))
  | other => other

/-- Blank out `processingMetadata.processingTimestamp` of a record: the only
clock-dependent component of a normalized Mistral record. -/
def scrubTimestamp (r : PyVal) : PyVal :=
  match r with
  | .dict es =>
    .dict (es.map (fun p =>
      if p.1 = "processingMetadata" then (p.1, scrubMeta p.2) else p))
  | other => other

/-- Is the value a dict? -/
def isDictB : PyVal → Bool
  | .dict _ => true
  | _ => false

/-- The markdown line at index `i` of a rendering result (used in theorem
statements about the Report Renderer). -/
def mdLineAt (r : Except PyErr (List String)) (i : Nat) : Option String :=
  match r with
  | .ok l => l[i]?
  | .error _ => Option.none

/-- The character list `format_currency` hands to `float()`: the digits, dots
and commas of the input, with the commas then removed. -/
def cleanedCurrencyChars (s : String) : List Char :=
  (s.toList.filter (fun c => c.isDigit || c = '.' || c = ',')).filter
    (fun c => c ≠ ',')

/-- The canonical Invoice Record top-level keys of the specification. -/
def canonical_keys : List String :=
  ["vendorName", "vendorAddress", "vendorContact", "clientName", "clientAddress",
   "invoiceNumber", "invoiceDate", "dueDate", "totalAmount", "subtotalAmount",
   "taxAmount", "currency", "lineItems", "handwrittenNotes", "confidenceScores",
   "processingMetadata", "markdownOutput", "additionalInfo"]

/-- The canonical keys that the Mistral error-shaped record does contain. -/
def mistral_error_present_keys : List String :=
  ["vendorName", "vendorAddress", "vendorContact", "clientName", "clientAddress",
   "invoiceNumber", "totalAmount", "currency", "lineItems", "handwrittenNotes",
   "confidenceScores", "processingMetadata", "markdownOutput", "additionalInfo"]

/-- The canonical keys missing from the Mistral error-shaped record. -/
def mistral_error_missing_keys : List String :=
  ["invoiceDate", "dueDate", "subtotalAmount", "taxAmount"]

/-! ## Helper lemmas -/

theorem dlookup_dictSet (d : List (String × PyVal)) (k : String) (v : PyVal)
    (q : String) :
    dlookup q (dictSet d k v) = if q = k then some v else dlookup q d := by
  induction d with
  | nil =>
    by_cases h : q = k
    · subst h; simp [dictSet, dlookup]
    · simp [dictSet, dlookup, h, Ne.symm h]
  | cons p rest ih =>
    obtain ⟨k', w⟩ := p
    by_cases h1 : k' = k
    · subst h1
      by_cases h2 : q = k'
      · subst h2; simp [dictSet, dlookup]
      · simp [dictSet, dlookup, h2, Ne.symm h2]
    · by_cases h2 : k' = q
      · have hqk : ¬q = k := fun hh => h1 (h2.trans hh)
        simp [dictSet, dlookup, h1, h2, hqk]
      · simp [dictSet, dlookup, h1, h2, ih]

theorem dlookup_append (q : String) (l1 l2 : List (String × PyVal)) :
    dlookup q (l1 ++ l2) =
      match dlookup q l1 with
      | some v => some v
      | Option.none => dlookup q l2 := by
  induction l1 with
  | nil => simp [dlookup]
  | cons p rest ih =>
    by_cases h : p.1 = q
    · simp [dlookup, h]
    · simp [dlookup, h, ih]

theorem dictSet_of_absent (d : List (String × PyVal)) (k : String) (v : PyVal)
    (h : dlookup k d = Option.none) : dictSet d k v = d ++ [(k, v)] := by
  induction d with
  | nil => simp [dictSet]
  | cons p rest ih =>
    obtain ⟨k', w⟩ := p
    by_cases h1 : k' = k
    · rw [dlookup, if_pos h1] at h
      exact absurd h (by simp)
    · rw [dlookup, if_neg h1] at h
      simp [dictSet, h1, ih h]

theorem missingFields_dict (fs : List String) (d : List (String × PyVal)) :
    missingFields fs (.dict d) =
      .ok (fs.filter (fun f => (dlookup f d).isNone)) := by
  induction fs with
  | nil => rfl
  | cons f rest ih =>
    cases hx : dlookup f d with
    | some v =>
      simp [missingFields, pyContains, ih, bind, Except.bind, hx, List.filter]
    | none =>
      simp [missingFields, pyContains, ih, bind, Except.bind, hx, List.filter]

theorem applyDefaults_dict (fs : List String) (d : List (String × PyVal)) :
    applyDefaults fs (.dict d) =
      .ok (.dict (fs.foldl (fun acc f => dictSet acc f (requiredDefault f)) d)) := by
  induction fs generalizing d with
  | nil => rfl
  | cons f rest ih => simp [applyDefaults, pySetItem, bind, Except.bind, ih]

theorem ensureListField_dict (d : List (String × PyVal)) (f : String) :
    ensureListField (.dict d) f = .ok (.dict (ensureL d f (.list []))) := by
  cases hx : dlookup f d with
  | some v => simp [ensureListField, pyContains, bind, Except.bind, hx, ensureL]
  | none => simp [ensureListField, pyContains, pySetItem, bind, Except.bind, hx, ensureL]

theorem dlookup_ensureL_other (d : List (String × PyVal)) (f q : String)
    (w : PyVal) (h : q ≠ f) : dlookup q (ensureL d f w) = dlookup q d := by
  unfold ensureL
  split
  · rfl
  · simp [dlookup_dictSet, h]

theorem dlookup_ensureL_key (d : List (String × PyVal)) (f : String) (w : PyVal) :
    dlookup f (ensureL d f w) = some ((dlookup f d).getD w) := by
  unfold ensureL
  cases hx : dlookup f d with
  | some v => simp [hx]
  | none => simp [hx, dlookup_dictSet]

theorem openai_validate_ok_dict (s : String) (d : List (String × PyVal))
    (h : json_loads s = .ok (.dict d)) :
    OpenaiOcr.validate s = .ok (.dict (dictFix d)) := by
  unfold OpenaiOcr.validate
  rw [h]
  simp [missingFields_dict, applyDefaults_dict, ensureListField_dict, bind,
    Except.bind, dictFix]

theorem dlookup_foldl_defaults_notmem (fs : List String)
    (d : List (String × PyVal)) (q : String) (h : q ∉ fs) :
    dlookup q (fs.foldl (fun acc f => dictSet acc f (requiredDefault f)) d) =
      dlookup q d := by
  induction fs generalizing d with
  | nil => rfl
  | cons f rest ih =>
    have hqf : q ≠ f := fun hh => h (hh ▸ List.mem_cons_self f rest)
    have hrest : q ∉ rest := fun hh => h (List.mem_cons_of_mem f hh)
    simp only [List.foldl_cons]
    rw [ih _ hrest, dlookup_dictSet, if_neg hqf]

theorem dlookup_foldl_defaults_mem (fs : List String)
    (d : List (String × PyVal)) (f : String) (hmem : f ∈ fs) (hnd : fs.Nodup) :
    dlookup f (fs.foldl (fun acc f => dictSet acc f (requiredDefault f)) d) =
      some (requiredDefault f) := by
  induction fs generalizing d with
  | nil => cases hmem
  | cons g rest ih =>
    by_cases hfg : f = g
    · subst hfg
      have hni : f ∉ rest := (List.nodup_cons.mp hnd).1
      simp only [List.foldl_cons]
      rw [dlookup_foldl_defaults_notmem rest _ f hni, dlookup_dictSet, if_pos rfl]
    · have hfin : f ∈ rest := by
        cases hmem with
        | head => exact absurd rfl hfg
        | tail _ hh => exact hh
      simp only [List.foldl_cons]
      exact ih _ hfin (List.nodup_cons.mp hnd).2

theorem dictFix_required_missing (d : List (String × PyVal)) (f : String)
    (hf : f ∈ required_fields) (hne1 : f ≠ "lineItems")
    (hne2 : f ≠ "handwrittenNotes") (h : dlookup f d = Option.none) :
    dlookup f (dictFix d) = some (requiredDefault f) := by
  unfold dictFix
  rw [dlookup_ensureL_other _ _ _ _ hne2, dlookup_ensureL_other _ _ _ _ hne1]
  refine dlookup_foldl_defaults_mem _ _ _ ?_ ?_
  · exact List.mem_filter.mpr ⟨hf, by simp [h]⟩
  · exact List.Nodup.filter _ (by decide)

theorem dictFix_required_present (d : List (String × PyVal)) (f : String)
    (v : PyVal) (hne1 : f ≠ "lineItems") (hne2 : f ≠ "handwrittenNotes")
    (h : dlookup f d = some v) :
    dlookup f (dictFix d) = some v := by
  unfold dictFix
  rw [dlookup_ensureL_other _ _ _ _ hne2, dlookup_ensureL_other _ _ _ _ hne1]
  rw [dlookup_foldl_defaults_notmem, h]
  intro hmem
  have := (List.mem_filter.mp hmem).2
  simp [h] at this

theorem dictFix_lineItems (d : List (String × PyVal)) :
    (dlookup "lineItems" (dictFix d)).isSome = true := by
  unfold dictFix
  rw [dlookup_ensureL_other _ _ _ _ (by decide), dlookup_ensureL_key]
  rfl

theorem dictFix_handwrittenNotes (d : List (String × PyVal)) :
    (dlookup "handwrittenNotes" (dictFix d)).isSome = true := by
  unfold dictFix
  rw [dlookup_ensureL_key]
  rfl

theorem dictFix_required_isSome (d : List (String × PyVal)) (f : String)
    (hf : f ∈ required_fields) (hne1 : f ≠ "lineItems")
    (hne2 : f ≠ "handwrittenNotes") :
    (dlookup f (dictFix d)).isSome = true := by
  cases h : dlookup f d with
  | some v => rw [dictFix_required_present d f v hne1 hne2 h]; rfl
  | none => rw [dictFix_required_missing d f hf hne1 hne2 h]; rfl

theorem standardized_entries_dict (d : List (String × PyVal)) (now : String) :
    MistralOcr.standardized_entries (.dict d) now =
      .ok (mistralCore d ++
        [("processingMetadata", MistralOcr.processing_metadata now Option.none)]) := by
  rfl

theorem standardize_dict (d : List (String × PyVal)) (now : String) :
    MistralOcr.standardize (.dict d) now =
      MistralOcr.withMarkdown (mistralCore (dictFix d) ++
        [("processingMetadata", MistralOcr.processing_metadata now Option.none)]) := by
  unfold MistralOcr.standardize
  simp [missingFields_dict, applyDefaults_dict, ensureListField_dict, bind,
    Except.bind, standardized_entries_dict, dictFix]

theorem generate_markdown_lines_congr (d1 d2 : List (String × PyVal))
    (h : ∀ q dflt, q ≠ "processingMetadata" → pyDictGetD d1 q dflt = pyDictGetD d2 q dflt) :
    generate_markdown_lines d1 = generate_markdown_lines d2 := by
  unfold generate_markdown_lines lineItemsSection handwrittenSection
  rw [h "vendorName" (.str "") (by decide), h "vendorAddress" (.str "") (by decide),
    h "vendorContact" (.str "") (by decide), h "invoiceNumber" (.str "") (by decide),
    h "invoiceDate" .none (by decide), h "dueDate" .none (by decide),
    h "lineItems" (.list []) (by decide), h "subtotalAmount" (.str "N/A") (by decide),
    h "taxAmount" (.str "N/A") (by decide), h "discountAmount" (.str "N/A") (by decide),
    h "totalAmount" (.str "N/A") (by decide), h "handwrittenNotes" (.list []) (by decide)]

theorem pyDictGetD_pm_append (core : List (String × PyVal)) (v : PyVal)
    (q : String) (dflt : PyVal) (hq : q ≠ "processingMetadata") :
    pyDictGetD (core ++ [("processingMetadata", v)]) q dflt =
      pyDictGetD core q dflt := by
  unfold pyDictGetD
  rw [dlookup_append]
  cases hx : dlookup q core with
  | some w => rfl
  | none => simp [dlookup, Ne.symm hq]

theorem generate_markdown_lines_pm (core : List (String × PyVal)) (v w : PyVal) :
    generate_markdown_lines (core ++ [("processingMetadata", v)]) =
      generate_markdown_lines (core ++ [("processingMetadata", w)]) := by
  refine generate_markdown_lines_congr _ _ (fun q dflt hq => ?_)
  rw [pyDictGetD_pm_append core v q dflt hq, pyDictGetD_pm_append core w q dflt hq]

theorem withMarkdown_pm_pair (core : List (String × PyVal)) (v w : PyVal)
    (hm : scrubMeta v = scrubMeta w)
    (hmd : dlookup "markdownOutput" core = Option.none) :
    (∃ e, MistralOcr.withMarkdown (core ++ [("processingMetadata", v)]) = .error e ∧
          MistralOcr.withMarkdown (core ++ [("processingMetadata", w)]) = .error e) ∨
    (∃ a b, MistralOcr.withMarkdown (core ++ [("processingMetadata", v)]) = .ok a ∧
            MistralOcr.withMarkdown (core ++ [("processingMetadata", w)]) = .ok b ∧
            scrubTimestamp a = scrubTimestamp b ∧
            getKey a "markdownOutput" = getKey b "markdownOutput") := by
  have hgen : generate_markdown_from_extraction (core ++ [("processingMetadata", v)]) =
      generate_markdown_from_extraction (core ++ [("processingMetadata", w)]) := by
    unfold generate_markdown_from_extraction
    rw [generate_markdown_lines_pm core v w]
  have habsv : dlookup "markdownOutput" (core ++ [("processingMetadata", v)]) =
      Option.none := by
    rw [dlookup_append, hmd]
    simp [dlookup]
  have habsw : dlookup "markdownOutput" (core ++ [("processingMetadata", w)]) =
      Option.none := by
    rw [dlookup_append, hmd]
    simp [dlookup]
  cases hG : generate_markdown_from_extraction (core ++ [("processingMetadata", v)]) with
  | error e =>
    left
    refine ⟨e, ?_, ?_⟩
    · simp [MistralOcr.withMarkdown, hG, bind, Except.bind]
    · simp [MistralOcr.withMarkdown, ← hgen, hG, bind, Except.bind]
  | ok md =>
    right
    refine ⟨.dict ((core ++ [("processingMetadata", v)]) ++ [("markdownOutput", .str md)]),
            .dict ((core ++ [("processingMetadata", w)]) ++ [("markdownOutput", .str md)]),
            ?_, ?_, ?_, ?_⟩
    · simp [MistralOcr.withMarkdown, hG, bind, Except.bind,
        dictSet_of_absent _ _ _ habsv]
    · simp [MistralOcr.withMarkdown, ← hgen, hG, bind, Except.bind,
        dictSet_of_absent _ _ _ habsw]
    · simp only [scrubTimestamp, List.map_append, List.map_cons, List.map_nil]
      simp [hm]
    · simp [getKey, dlookup_append, hmd, dlookup]

theorem scrubMeta_pm (t t' : String) (err : Option String) :
    scrubMeta (MistralOcr.processing_metadata t err) =
      scrubMeta (MistralOcr.processing_metadata t' err) := by
  cases err <;> simp [MistralOcr.processing_metadata, scrubMeta]

theorem error_core_md_absent :
    dlookup "markdownOutput" MistralOcr.error_core = Option.none := by
  rfl

theorem mistralCore_md_absent (d : List (String × PyVal)) :
    dlookup "markdownOutput" (mistralCore d) = Option.none := by
  simp [mistralCore, dlookup]

theorem general_error_pair (msg t t' : String) :
    scrubTimestamp (MistralOcr.general_error msg t) =
      scrubTimestamp (MistralOcr.general_error msg t') ∧
    getKey (MistralOcr.general_error msg t) "markdownOutput" =
      getKey (MistralOcr.general_error msg t') "markdownOutput" := by
  unfold MistralOcr.general_error MistralOcr.error_entries
  rcases withMarkdown_pm_pair MistralOcr.error_core
      (MistralOcr.processing_metadata t (some ("Mistral API error: " ++ msg)))
      (MistralOcr.processing_metadata t' (some ("Mistral API error: " ++ msg)))
      (scrubMeta_pm t t' _) error_core_md_absent with
    ⟨e, h1, h2⟩ | ⟨a, b, h1, h2, h3, h4⟩
  · rw [h1, h2]
    exact ⟨rfl, rfl⟩
  · rw [h1, h2]
    exact ⟨h3, h4⟩

theorem standardize_pair (parsed : PyVal) (t t' : String) :
    (∃ e, MistralOcr.standardize parsed t = .error e ∧
          MistralOcr.standardize parsed t' = .error e) ∨
    (∃ a b, MistralOcr.standardize parsed t = .ok a ∧
            MistralOcr.standardize parsed t' = .ok b ∧
            scrubTimestamp a = scrubTimestamp b ∧
            getKey a "markdownOutput" = getKey b "markdownOutput") := by
  unfold MistralOcr.standardize
  cases hm : missingFields required_fields parsed with
  | error e =>
    left
    exact ⟨e, by simp [hm, bind, Except.bind], by simp [hm, bind, Except.bind]⟩
  | ok missing =>
  cases ha : applyDefaults missing parsed with
  | error e =>
    left
    exact ⟨e, by simp [hm, ha, bind, Except.bind], by simp [hm, ha, bind, Except.bind]⟩
  | ok pj =>
  cases h1 : ensureListField pj "lineItems" with
  | error e =>
    left
    exact ⟨e, by simp [hm, ha, h1, bind, Except.bind],
      by simp [hm, ha, h1, bind, Except.bind]⟩
  | ok pj2 =>
  cases h2 : ensureListField pj2 "handwrittenNotes" with
  | error e =>
    left
    exact ⟨e, by simp [hm, ha, h1, h2, bind, Except.bind],
      by simp [hm, ha, h1, h2, bind, Except.bind]⟩
  | ok pj3 =>
  cases pj3 with
  | dict d3 =>
    rcases withMarkdown_pm_pair (mistralCore d3)
        (MistralOcr.processing_metadata t Option.none)
        (MistralOcr.processing_metadata t' Option.none)
        (scrubMeta_pm t t' _) (mistralCore_md_absent d3) with
      ⟨e, hw1, hw2⟩ | ⟨a, b, hw1, hw2, hw3, hw4⟩
    · left
      exact ⟨e, by simp [hm, ha, h1, h2, standardized_entries_dict, bind, Except.bind, hw1],
        by simp [hm, ha, h1, h2, standardized_entries_dict, bind, Except.bind, hw2]⟩
    · right
      exact ⟨a, b,
        by simp [hm, ha, h1, h2, standardized_entries_dict, bind, Except.bind, hw1],
        by simp [hm, ha, h1, h2, standardized_entries_dict, bind, Except.bind, hw2],
        hw3, hw4⟩
  | none =>
    left
    exact ⟨.attributeError "NoneType object has no attribute get",
      by simp [hm, ha, h1, h2, bind, Except.bind]; rfl,
      by simp [hm, ha, h1, h2, bind, Except.bind]; rfl⟩
  | bool b =>
    left
    exact ⟨.attributeError "bool object has no attribute get",
      by simp [hm, ha, h1, h2, bind, Except.bind]; rfl,
      by simp [hm, ha, h1, h2, bind, Except.bind]; rfl⟩
  | int n =>
    left
    exact ⟨.attributeError "int object has no attribute get",
      by simp [hm, ha, h1, h2, bind, Except.bind]; rfl,
      by simp [hm, ha, h1, h2, bind, Except.bind]; rfl⟩
  | float m e =>
    left
    exact ⟨.attributeError "float object has no attribute get",
      by simp [hm, ha, h1, h2, bind, Except.bind]; rfl,
      by simp [hm, ha, h1, h2, bind, Except.bind]; rfl⟩
  | str s =>
    left
    exact ⟨.attributeError "str object has no attribute get",
      by simp [hm, ha, h1, h2, bind, Except.bind]; rfl,
      by simp [hm, ha, h1, h2, bind, Except.bind]; rfl⟩
  | list l =>
    left
    exact ⟨.attributeError "list object has no attribute get",
      by simp [hm, ha, h1, h2, bind, Except.bind]; rfl,
      by simp [hm, ha, h1, h2, bind, Except.bind]; rfl⟩

theorem validate_pair (x t t' : String) :
    (∃ e, MistralOcr.validate x t = .error e ∧
          MistralOcr.validate x t' = .error e) ∨
    (∃ a b, MistralOcr.validate x t = .ok a ∧
            MistralOcr.validate x t' = .ok b ∧
            scrubTimestamp a = scrubTimestamp b ∧
            getKey a "markdownOutput" = getKey b "markdownOutput") := by
  unfold MistralOcr.validate
  cases hjl : json_loads x with
  | error e =>
    unfold MistralOcr.error_entries
    exact withMarkdown_pm_pair MistralOcr.error_core _ _
      (scrubMeta_pm t t' _) error_core_md_absent
  | ok parsed => exact standardize_pair parsed t t'

theorem normalize_pair (x t t' : String) :
    scrubTimestamp (MistralOcr.normalize x t) =
      scrubTimestamp (MistralOcr.normalize x t') ∧
    getKey (MistralOcr.normalize x t) "markdownOutput" =
      getKey (MistralOcr.normalize x t') "markdownOutput" := by
  unfold MistralOcr.normalize
  rcases validate_pair x t t' with ⟨e, h1, h2⟩ | ⟨a, b, h1, h2, h3, h4⟩
  · rw [h1, h2]
    exact general_error_pair (pyErrStr e) t t'
  · rw [h1, h2]
    exact ⟨h3, h4⟩

theorem error_entries_markdown (msg now : String) :
    ∃ md, generate_markdown_from_extraction (MistralOcr.error_entries msg now) =
      .ok md := by
  exact ⟨_, rfl⟩

theorem withMarkdown_error_entries (msg now : String) :
    ∃ md, MistralOcr.withMarkdown (MistralOcr.error_entries msg now) =
      .ok (.dict (MistralOcr.error_entries msg now ++
        [("markdownOutput", .str md)])) := by
  obtain ⟨md, hmd⟩ := error_entries_markdown msg now
  refine ⟨md, ?_⟩
  have habs : dlookup "markdownOutput" (MistralOcr.error_entries msg now) =
      Option.none := by
    unfold MistralOcr.error_entries
    rw [dlookup_append, error_core_md_absent]
    simp [dlookup]
  simp [MistralOcr.withMarkdown, hmd, bind, Except.bind, dictSet_of_absent _ _ _ habs]

theorem general_error_dict (msg now : String) :
    ∃ es, MistralOcr.general_error msg now = .dict es := by
  unfold MistralOcr.general_error
  obtain ⟨md, h⟩ := withMarkdown_error_entries ("Mistral API error: " ++ msg) now
  rw [h]
  exact ⟨_, rfl⟩

theorem withMarkdown_ok_dict (entries : List (String × PyVal)) (a : PyVal)
    (h : MistralOcr.withMarkdown entries = .ok a) : ∃ es, a = .dict es := by
  unfold MistralOcr.withMarkdown at h
  cases hG : generate_markdown_from_extraction entries with
  | error e => rw [hG] at h; simp [bind, Except.bind] at h
  | ok md =>
    rw [hG] at h
    simp [bind, Except.bind] at h
    exact ⟨_, h.symm⟩

theorem standardize_ok_dict_shape (parsed : PyVal) (now : String) (a : PyVal)
    (h : MistralOcr.standardize parsed now = .ok a) : ∃ es, a = .dict es := by
  unfold MistralOcr.standardize at h
  cases hm : missingFields required_fields parsed <;> rw [hm] at h <;>
    simp [bind, Except.bind] at h
  case ok missing =>
  cases ha : applyDefaults missing parsed <;> rw [ha] at h <;>
    simp [bind, Except.bind] at h
  case ok pj =>
  cases h1 : ensureListField pj "lineItems" <;> rw [h1] at h <;>
    simp [bind, Except.bind] at h
  case ok pj2 =>
  cases h2 : ensureListField pj2 "handwrittenNotes" <;> rw [h2] at h <;>
    simp [bind, Except.bind] at h
  case ok pj3 =>
  cases hse : MistralOcr.standardized_entries pj3 now <;> rw [hse] at h <;>
    simp [bind, Except.bind] at h
  case ok entries => exact withMarkdown_ok_dict entries a h

theorem mistral_normalize_dict (s now : String) :
    ∃ es, MistralOcr.normalize s now = .dict es := by
  unfold MistralOcr.normalize
  cases hv : MistralOcr.validate s now with
  | error e => exact general_error_dict (pyErrStr e) now
  | ok v =>
    unfold MistralOcr.validate at hv
    cases hjl : json_loads s with
    | error e =>
      rw [hjl] at hv
      dsimp only at hv
      obtain ⟨md, hw⟩ :=
        withMarkdown_error_entries ("Failed to parse JSON from Mistral response: " ++ e) now
      rw [hw] at hv
      cases hv
      exact ⟨_, rfl⟩
    | ok parsed =>
      rw [hjl] at hv
      dsimp only at hv
      exact standardize_ok_dict_shape parsed now v hv

theorem standardize_dict_ok (d : List (String × PyVal)) (now : String) (r : PyVal)
    (h : MistralOcr.standardize (.dict d) now = .ok r) :
    ∃ md, r = .dict ((mistralCore (dictFix d) ++
      [("processingMetadata", MistralOcr.processing_metadata now Option.none)]) ++
      [("markdownOutput", .str md)]) := by
  rw [standardize_dict] at h
  unfold MistralOcr.withMarkdown at h
  cases hG : generate_markdown_from_extraction (mistralCore (dictFix d) ++
      [("processingMetadata", MistralOcr.processing_metadata now Option.none)]) with
  | error e => rw [hG] at h; simp [bind, Except.bind] at h
  | ok md =>
    rw [hG] at h
    simp [bind, Except.bind] at h
    have habs : dlookup "markdownOutput" (mistralCore (dictFix d) ++
        [("processingMetadata", MistralOcr.processing_metadata now Option.none)]) =
        Option.none := by
      rw [dlookup_append, mistralCore_md_absent]
      simp [dlookup]
    rw [dictSet_of_absent _ _ _ habs] at h
    exact ⟨md, h.symm⟩

theorem poll_loop_aux_counts (poll : Nat → PyVal) (fuel k p s : Nat) :
    (MsAzureOcr.poll_loop_aux poll fuel k p s).1 ≤ p + fuel ∧
    (MsAzureOcr.poll_loop_aux poll fuel k p s).2.1 ≤ s + fuel := by
  induction fuel generalizing k p s with
  | zero => simp [MsAzureOcr.poll_loop_aux]
  | succ fuel ih =>
    rw [MsAzureOcr.poll_loop_aux]
    cases hp : poll k with
    | dict d =>
      cases h1 : MsAzureOcr.statusIs (PyVal.dict d) "succeeded"
      · cases h2 : MsAzureOcr.statusIs (PyVal.dict d) "failed"
        · simp only [h1, h2, Bool.false_eq_true, if_false]
          have := ih (k + 1) (p + 1) (s + 1)
          exact ⟨by omega, by omega⟩
        · cases hfd : MsAzureOcr.failed_detail (PyVal.dict d) <;>
            refine ⟨?_, ?_⟩ <;> simp [h1, h2, hfd]
      · refine ⟨?_, ?_⟩ <;> simp [h1]
    | none => refine ⟨?_, ?_⟩ <;> simp
    | bool b => refine ⟨?_, ?_⟩ <;> simp
    | int n => refine ⟨?_, ?_⟩ <;> simp
    | float m e => refine ⟨?_, ?_⟩ <;> simp
    | str t => refine ⟨?_, ?_⟩ <;> simp
    | list l => refine ⟨?_, ?_⟩ <;> simp

theorem poll_loop_aux_timeout (poll : Nat → PyVal) (fuel k p s : Nat)
    (h : ∀ i, i < fuel → isDictB (poll (k + i)) = true ∧
      MsAzureOcr.statusIs (poll (k + i)) "succeeded" = false ∧
      MsAzureOcr.statusIs (poll (k + i)) "failed" = false) :
    MsAzureOcr.poll_loop_aux poll fuel k p s =
      (p + fuel, s + fuel,
        .error (.valueError "Azure Document Intelligence analysis timed out")) := by
  induction fuel generalizing k p s with
  | zero => simp [MsAzureOcr.poll_loop_aux]
  | succ fuel ih =>
    obtain ⟨hd, hs, hf⟩ := h 0 (by omega)
    rw [Nat.add_zero] at hd hs hf
    rw [MsAzureOcr.poll_loop_aux]
    cases hp : poll k with
    | dict d =>
      rw [hp] at hs hf
      simp only [hs, hf, Bool.false_eq_true, if_false]
      have h' : ∀ i, i < fuel → isDictB (poll (k + 1 + i)) = true ∧
          MsAzureOcr.statusIs (poll (k + 1 + i)) "succeeded" = false ∧
          MsAzureOcr.statusIs (poll (k + 1 + i)) "failed" = false := by
        intro i hi
        have hshift := h (i + 1) (by omega)
        have harith : k + (i + 1) = k + 1 + i := by omega
        rw [harith] at hshift
        exact hshift
      rw [ih (k + 1) (p + 1) (s + 1) h']
      have e1 : p + 1 + fuel = p + (fuel + 1) := by omega
      have e2 : s + 1 + fuel = s + (fuel + 1) := by omega
      rw [e1, e2]
    | none => rw [hp] at hd; simp [isDictB] at hd
    | bool b => rw [hp] at hd; simp [isDictB] at hd
    | int n => rw [hp] at hd; simp [isDictB] at hd
    | float m e => rw [hp] at hd; simp [isDictB] at hd
    | str t => rw [hp] at hd; simp [isDictB] at hd
    | list l => rw [hp] at hd; simp [isDictB] at hd

/-! ## The claims -/

/-- Claim C10: for every exception reaching the outer error handler of the
Azure `extract_invoice_data` function, evaluating the Azure-shaped error
response raises `NameError`, because the bare name `null` at line 559 of
`ms_azure_ocr.py` is undefined in Python; hence the documented error-shaped
list (status `error` with `markdownOutput`) is never returned — every error
path through this handler raises instead of returning a value. -/
theorem claim_C10_error_handler_raises_name_error :
    ∀ msg : String, MsAzureOcr.error_handler msg = .error (.nameError "null") := by
  intro msg
  rfl

/-- Claim C9: the managed-variant polling loop uses the fixed constants
`retry_delay = 1` second and `max_retries = 10`; it always terminates (it is
a total function), makes at most 10 polls and at most 10 sleeps, and when all
10 polls return non-terminal statuses (neither `succeeded` nor `failed`), it
makes exactly 10 polls and raises the `Timeout` `ValueError`. -/
theorem claim_C9_polling_bounded_timeout :
    MsAzureOcr.retry_delay = 1 ∧ MsAzureOcr.max_retries = 10 ∧
    (∀ poll, (MsAzureOcr.poll_loop poll).1 ≤ MsAzureOcr.max_retries ∧
             (MsAzureOcr.poll_loop poll).2.1 ≤ MsAzureOcr.max_retries) ∧
    (∀ poll, (∀ k, k < MsAzureOcr.max_retries → isDictB (poll k) = true ∧
        MsAzureOcr.statusIs (poll k) "succeeded" = false ∧
        MsAzureOcr.statusIs (poll k) "failed" = false) →
      MsAzureOcr.poll_loop poll = (10, 10,
        .error (.valueError "Azure Document Intelligence analysis timed out"))) := by
  refine ⟨rfl, rfl, fun poll => ?_, fun poll h => ?_⟩
  · have := poll_loop_aux_counts poll 10 0 0 0
    simp only [MsAzureOcr.poll_loop, MsAzureOcr.max_retries]
    exact ⟨by omega, by omega⟩
  · have hh : ∀ i, i < 10 → isDictB (poll (0 + i)) = true ∧
        MsAzureOcr.statusIs (poll (0 + i)) "succeeded" = false ∧
        MsAzureOcr.statusIs (poll (0 + i)) "failed" = false := by
      intro i hi
      have := h i (by exact hi)
      simpa using this
    have := poll_loop_aux_timeout poll 10 0 0 0 hh
    simp only [MsAzureOcr.poll_loop, MsAzureOcr.max_retries]
    exact this

/-- Witness for C9: a poll stream that always reports `running` produces the
timeout after exactly 10 polls and 10 one-second sleeps. -/
theorem claim_C9_witness :
    MsAzureOcr.poll_loop (fun _ => .dict [("status", .str "running")]) =
      (10, 10, .error (.valueError "Azure Document Intelligence analysis timed out")) :=
  claim_C9_polling_bounded_timeout.2.2.2
    (fun _ => .dict [("status", .str "running")]) (by decide)

/-- Claim C5: `extract_json` proceeds in priority order — the first fenced
code block's inner content when one exists, otherwise the first greedy brace
span, otherwise the trimmed raw text, with residual fence markers stripped;
in particular a fenced `json` block containing a JSON object amid prose
yields exactly that object text. -/
theorem claim_C5_extract_json_priority :
    extract_json "Here is the data:\n```json\n\x7b\"a\":1\x7d\n```\nThanks." =
      "\x7b\"a\":1\x7d" ∧
    extract_json "prose \x7b\"k\": 2\x7d tail" = "\x7b\"k\": 2\x7d" ∧
    extract_json "  plain text  " = "plain text" ∧
    extract_json "```abc" = "abc" ∧
    (∀ raw g, findFenceGroup (pyStripL raw.toList) = some g →
       extract_json raw = (fenceCleanup (pyStripL g)).asString) ∧
    (∀ raw b, findFenceGroup (pyStripL raw.toList) = Option.none →
       braceGroup (pyStripL raw.toList) = some b →
       extract_json raw = (fenceCleanup (pyStripL b)).asString) ∧
    (∀ raw, findFenceGroup (pyStripL raw.toList) = Option.none →
       braceGroup (pyStripL raw.toList) = Option.none →
       extract_json raw = (fenceCleanup (pyStripL (pyStripL raw.toList))).asString) := by
  refine ⟨by rfl, by rfl, by rfl, by rfl, ?_, ?_, ?_⟩
  · intro raw g h
    simp only [String.toList] at h
    simp [extract_json, h]
  · intro raw b h1 h2
    simp only [String.toList] at h1 h2
    simp [extract_json, h1, h2]
  · intro raw h1 h2
    simp only [String.toList] at h1 h2
    simp [extract_json, h1, h2]

/-- Witness for C5: the brace branch applied to a concrete input with no
fence. -/
theorem claim_C5_witness :
    extract_json "ab \x7b\"z\": 1\x7d cd" = "\x7b\"z\": 1\x7d" := by
  have h1 : findFenceGroup (pyStripL ("ab \x7b\"z\": 1\x7d cd").toList) =
      Option.none := by rfl
  have h2 : braceGroup (pyStripL ("ab \x7b\"z\": 1\x7d cd").toList) =
      some ("\x7b\"z\": 1\x7d".toList) := by rfl
  have := claim_C5_extract_json_priority.2.2.2.2.2.1 _ _ h1 h2
  exact this.trans (by rfl)

/-- Claim C1: for every candidate text that is not valid JSON, the
normalization step of both the OpenAI and the Mistral module returns (never
raises) an error-shaped record whose error field names the decode failure,
whose `totalAmount` is `0` and whose `lineItems` is the empty list. -/
theorem claim_C1_decode_failure_containment :
    ∀ s e, json_loads s = .error e →
      (OpenaiOcr.validate s = .ok (OpenaiOcr.decode_error_record e) ∧
       getKey (OpenaiOcr.decode_error_record e) "error" =
         some (.str ("Failed to parse JSON from OpenAI response: " ++ e)) ∧
       getKey (OpenaiOcr.decode_error_record e) "totalAmount" = some (.int 0) ∧
       getKey (OpenaiOcr.decode_error_record e) "lineItems" = some (.list [])) ∧
      (∀ now, ∃ r, MistralOcr.validate s now = .ok r ∧
        getKey2 r "processingMetadata" "error" =
          some (.str ("Failed to parse JSON from Mistral response: " ++ e)) ∧
        getKey r "totalAmount" = some (.int 0) ∧
        getKey r "lineItems" = some (.list [])) := by
  intro s e h
  constructor
  · refine ⟨?_, ?_, ?_, ?_⟩
    · unfold OpenaiOcr.validate
      rw [h]
    · simp [OpenaiOcr.decode_error_record, getKey, dlookup]
    · simp [OpenaiOcr.decode_error_record, getKey, dlookup]
    · simp [OpenaiOcr.decode_error_record, getKey, dlookup]
  · intro now
    obtain ⟨md, hw⟩ :=
      withMarkdown_error_entries ("Failed to parse JSON from Mistral response: " ++ e) now
    refine ⟨.dict (MistralOcr.error_entries
        ("Failed to parse JSON from Mistral response: " ++ e) now ++
        [("markdownOutput", .str md)]), ?_, ?_, ?_, ?_⟩
    · unfold MistralOcr.validate
      rw [h]
      exact hw
    · simp [MistralOcr.error_entries, MistralOcr.error_core,
        MistralOcr.processing_metadata, getKey2, getKey, dlookup, dlookup_append]
    · simp [MistralOcr.error_entries, MistralOcr.error_core, getKey, dlookup,
        dlookup_append]
    · simp [MistralOcr.error_entries, MistralOcr.error_core, getKey, dlookup,
        dlookup_append]

/-- Witness for C1: the gibberish candidate `not json`. -/
theorem claim_C1_witness :
    OpenaiOcr.validate "not json" =
      .ok (OpenaiOcr.decode_error_record "Expecting value") ∧
    getKey (OpenaiOcr.decode_error_record "Expecting value") "totalAmount" =
      some (.int 0) :=
  ⟨(claim_C1_decode_failure_containment "not json" "Expecting value" (by rfl)).1.1,
   (claim_C1_decode_failure_containment "not json" "Expecting value" (by rfl)).1.2.2.1⟩

/-- Counterexample for C2 as stated: for a one-byte PDF upload from which
zero pages are extracted, the `/openai-ocr` endpoint raises
`HTTPException(400)` — it does not return an error Invoice Record, and the
exception escapes to the endpoint's caller (the adapter-call count is 0). -/
theorem claim_C2_counterexample :
    Main.process_with_openai ⟨fun _ => [], fun _ _ => .ok "x"⟩
        ⟨"doc.pdf", "application/pdf", [1]⟩ =
      (.httpExc 400
        "Error converting PDF: 400: Could not convert PDF to image (no pages found)", 0) := by
  rfl

/-- Claim C2 (amended): for every PDF upload with nonempty content from which
zero pages can be extracted, the `/openai-ocr` endpoint attempts no adapter
call and raises `HTTPException` with status 400 whose detail wraps the
PDF-conversion failure; no Invoice Record is returned. -/
theorem claim_C2_zero_page_pdf :
    ∀ (env : Main.OcrEnv) (f : Main.UploadedFile),
      f.content ≠ [] →
      (f.content_type = "application/pdf" ∨ Main.file_ext f.filename = "pdf") →
      env.convert_from_bytes f.content = [] →
      Main.process_with_openai env f =
        (.httpExc 400
          "Error converting PDF: 400: Could not convert PDF to image (no pages found)",
         0) := by
  intro env f hne hpdf hconv
  unfold Main.process_with_openai
  rw [if_neg (fun hh => hne (List.length_eq_zero.mp hh)), if_pos hpdf, hconv]
  rfl

/-- Witness for C2 (amended): a file recognized as PDF by its extension. -/
theorem claim_C2_witness :
    Main.process_with_openai ⟨fun _ => [], fun _ _ => .ok "y"⟩
        ⟨"scan.pdf", "image/png", [2, 3]⟩ =
      (.httpExc 400
        "Error converting PDF: 400: Could not convert PDF to image (no pages found)",
       0) :=
  claim_C2_zero_page_pdf ⟨fun _ => [], fun _ _ => .ok "y"⟩
    ⟨"scan.pdf", "image/png", [2, 3]⟩ (by simp) (Or.inr (by rfl)) (by rfl)

/-- Counterexample for C8 as stated: a plain `YYYY-MM-DD` invoice date (no
`T`) is rendered unchanged in the Invoice Details section, not reformatted to
`YYYY/MM/DD`. -/
theorem claim_C8_counterexample :
    mdLineAt (generate_markdown_lines [("invoiceDate", .str "2024-01-15")]) 9 =
      some "- **Invoice Date**: 2024-01-15" ∧
    ("- **Invoice Date**: 2024-01-15" : String) ≠
      "- **Invoice Date**: 2024/01/15" := by
  exact ⟨by rfl, by decide⟩

/-- Claim C8 (amended): in the rendered markdown's Invoice Details section,
an `invoiceDate` (resp. `dueDate`) string containing `T` (an ISO datetime) is
displayed as the part before `T` with hyphens replaced by slashes; a plain
date string without `T` is displayed unchanged. -/
theorem claim_C8_date_render :
    (∀ data s L, generate_markdown_lines data = .ok L →
       pyDictGetD data "invoiceDate" .none = .str s →
       containsSubstr "T" s = true →
       L[9]? = some ("- **Invoice Date**: " ++ slashifyBeforeT s)) ∧
    (∀ data s L, generate_markdown_lines data = .ok L →
       pyDictGetD data "dueDate" .none = .str s →
       containsSubstr "T" s = true →
       L[10]? = some ("- **Due Date**: " ++ slashifyBeforeT s)) ∧
    (∀ data s L, generate_markdown_lines data = .ok L →
       pyDictGetD data "invoiceDate" .none = .str s →
       containsSubstr "T" s = false → s ≠ "" →
       L[9]? = some ("- **Invoice Date**: " ++ s)) := by
  refine ⟨?_, ?_, ?_⟩
  · intro data s L hok hd hT
    have hs : s ≠ "" := by
      intro hh
      subst hh
      exact absurd hT (by decide)
    unfold generate_markdown_lines at hok
    cases hi : lineItemsSection data <;> rw [hi] at hok <;>
      simp [bind, Except.bind] at hok
    cases hn : handwrittenSection data <;> rw [hn] at hok <;>
      simp [bind, Except.bind] at hok
    subst hok
    simp [hd, formatDateStr, pyTruthy, hs, hT]
  · intro data s L hok hd hT
    have hs : s ≠ "" := by
      intro hh
      subst hh
      exact absurd hT (by decide)
    unfold generate_markdown_lines at hok
    cases hi : lineItemsSection data <;> rw [hi] at hok <;>
      simp [bind, Except.bind] at hok
    cases hn : handwrittenSection data <;> rw [hn] at hok <;>
      simp [bind, Except.bind] at hok
    subst hok
    simp [hd, formatDateStr, pyTruthy, hs, hT]
  · intro data s L hok hd hT hs
    unfold generate_markdown_lines at hok
    cases hi : lineItemsSection data <;> rw [hi] at hok <;>
      simp [bind, Except.bind] at hok
    cases hn : handwrittenSection data <;> rw [hn] at hok <;>
      simp [bind, Except.bind] at hok
    subst hok
    simp [hd, formatDateStr, pyTruthy, hs, hT]

/-- Witness for C8 (amended): a datetime string is reformatted with slashes;
the conversion of the concrete prefix is also checked. -/
theorem claim_C8_witness :
    mdLineAt (generate_markdown_lines
      [("invoiceDate", .str "2024-01-15T00:00:00")]) 9 =
      some "- **Invoice Date**: 2024/01/15" := by
  have h := claim_C8_date_render.1
    [("invoiceDate", .str "2024-01-15T00:00:00")] "2024-01-15T00:00:00"
    ((generate_markdown_lines [("invoiceDate", .str "2024-01-15T00:00:00")]).toOption.getD [])
    (by rfl) (by rfl) (by rfl)
  calc mdLineAt (generate_markdown_lines
      [("invoiceDate", .str "2024-01-15T00:00:00")]) 9
      = ((generate_markdown_lines
          [("invoiceDate", .str "2024-01-15T00:00:00")]).toOption.getD [])[9]? := by rfl
    _ = some ("- **Invoice Date**: " ++ slashifyBeforeT "2024-01-15T00:00:00") := h
    _ = some "- **Invoice Date**: 2024/01/15" := by rfl

/-- Counterexample for C7 as stated: the Mistral normalizer copies a monetary
field given as a currency string unchanged — `totalAmount` stays the string
`$1,234.50` instead of becoming the number `1234.5`. -/
theorem claim_C7_counterexample :
    getKey (MistralOcr.normalize "\x7b\"totalAmount\":\"$1,234.50\"\x7d" "TS")
      "totalAmount" = some (.str "$1,234.50") ∧
    PyVal.str "$1,234.50" ≠ PyVal.float 12345 (-1) := by
  exact ⟨by rfl, fun h => PyVal.noConfusion h⟩

/-- Claim C7 (amended): the coercion that drops currency symbols and
thousands separators exists only in the Azure path's `format_currency`, which
maps the string `$1,234.50` to the float `1234.5` and returns `None` when the
conversion fails (or the input is falsy); the Mistral normalizer copies a
present `totalAmount` unchanged, without coercion. -/
theorem claim_C7_currency_coercion :
    (MsAzureOcr.format_currency (.str "$1,234.50") = some (.float 12345 (-1)) ∧
     decValue 12345 (-1) = 2469 / 2) ∧
    (∀ s, s ≠ "" →
       MsAzureOcr.floatOfDigitsDots (cleanedCurrencyChars s) = Option.none →
       MsAzureOcr.format_currency (.str s) = Option.none) ∧
    (MsAzureOcr.format_currency (.str "") = Option.none) ∧
    (∀ s d v now r, json_loads s = .ok (.dict d) →
       dlookup "totalAmount" d = some v →
       MistralOcr.standardize (.dict d) now = .ok r →
       getKey r "totalAmount" = some v) := by
  refine ⟨⟨by rfl, ?_⟩, ?_, by rfl, ?_⟩
  · norm_num [decValue]
  · intro s hs hno
    unfold MsAzureOcr.format_currency
    rw [if_neg (by simp [pyTruthy, hs])]
    unfold cleanedCurrencyChars at hno
    simpa [pyStr] using hno
  · intro s d v now r hjl hv hstd
    obtain ⟨md, hr⟩ := standardize_dict_ok d now r hstd
    subst hr
    simp [getKey, dlookup_append, mistralCore, dlookup, pyDictGetD,
      dictFix_required_present d "totalAmount" v (by decide) (by decide) hv]

/-- Witness for C7 (amended): a failing coercion, and the copy-through of a
present numeric `totalAmount`. -/
theorem claim_C7_witness :
    MsAzureOcr.format_currency (.str "abc") = Option.none ∧
    getKey ((MistralOcr.standardize (.dict [("totalAmount", .int 7)])
        "TS").toOption.getD .none) "totalAmount" = some (.int 7) :=
  ⟨claim_C7_currency_coercion.2.1 "abc" (by decide) (by rfl),
   claim_C7_currency_coercion.2.2.2 "\x7b\"totalAmount\":7\x7d"
     [("totalAmount", .int 7)] (.int 7) "TS"
     ((MistralOcr.standardize (.dict [("totalAmount", .int 7)])
        "TS").toOption.getD .none) (by rfl) (by rfl) (by rfl)⟩

/-- Counterexample for C6 as stated: for the successfully decoded JSON object
with a non-object line item, the Mistral path leaves `vendorName` as the
empty string instead of filling it with `Unknown` — rendering the
standardized record raises `AttributeError`, which the function-level handler
converts into the general error record. -/
theorem claim_C6_counterexample :
    json_loads "\x7b\"lineItems\":[3]\x7d" =
      .ok (.dict [("lineItems", .list [.int 3])]) ∧
    dlookup "vendorName" [("lineItems", PyVal.list [.int 3])] = Option.none ∧
    getKey (MistralOcr.normalize "\x7b\"lineItems\":[3]\x7d" "TS") "vendorName" =
      some (.str "") ∧
    PyVal.str "" ≠ PyVal.str "Unknown" := by
  refine ⟨by rfl, by rfl, by rfl, ?_⟩
  intro h
  injection h with h2
  exact absurd h2 (by decide)

/-- Claim C6 (amended): for every successfully decoded JSON object missing
any of `vendorName` / `invoiceNumber` / `totalAmount`, the OpenAI validation
fills the missing fields with `Unknown` / `0` and returns the record; the
Mistral standardization does the same whenever it succeeds (in particular
whenever every line item and handwritten note is an object); and the Mistral
module always returns a record (a dict) rather than raising. -/
theorem claim_C6_required_field_defaults :
    (∀ s d, json_loads s = .ok (.dict d) →
       OpenaiOcr.validate s = .ok (.dict (dictFix d)) ∧
       (dlookup "vendorName" d = Option.none →
          dlookup "vendorName" (dictFix d) = some (.str "Unknown")) ∧
       (dlookup "invoiceNumber" d = Option.none →
          dlookup "invoiceNumber" (dictFix d) = some (.str "Unknown")) ∧
       (dlookup "totalAmount" d = Option.none →
          dlookup "totalAmount" (dictFix d) = some (.int 0))) ∧
    (∀ s d now r, json_loads s = .ok (.dict d) →
       MistralOcr.standardize (.dict d) now = .ok r →
       (dlookup "vendorName" d = Option.none →
          getKey r "vendorName" = some (.str "Unknown")) ∧
       (dlookup "invoiceNumber" d = Option.none →
          getKey r "invoiceNumber" = some (.str "Unknown")) ∧
       (dlookup "totalAmount" d = Option.none →
          getKey r "totalAmount" = some (.int 0))) ∧
    (∀ s now, ∃ es, MistralOcr.normalize s now = .dict es) := by
  refine ⟨?_, ?_, fun s now => mistral_normalize_dict s now⟩
  · intro s d hjl
    refine ⟨openai_validate_ok_dict s d hjl, ?_, ?_, ?_⟩
    · intro h
      have := dictFix_required_missing d "vendorName" (by decide) (by decide)
        (by decide) h
      simpa [requiredDefault] using this
    · intro h
      have := dictFix_required_missing d "invoiceNumber" (by decide) (by decide)
        (by decide) h
      simpa [requiredDefault] using this
    · intro h
      have := dictFix_required_missing d "totalAmount" (by decide) (by decide)
        (by decide) h
      simpa [requiredDefault] using this
  · intro s d now r hjl hstd
    obtain ⟨md, hr⟩ := standardize_dict_ok d now r hstd
    subst hr
    refine ⟨?_, ?_, ?_⟩
    · intro h
      have hfix := dictFix_required_missing d "vendorName" (by decide) (by decide)
        (by decide) h
      simp [getKey, dlookup_append, mistralCore, dlookup, pyDictGetD, hfix,
        requiredDefault]
    · intro h
      have hfix := dictFix_required_missing d "invoiceNumber" (by decide)
        (by decide) (by decide) h
      simp [getKey, dlookup_append, mistralCore, dlookup, pyDictGetD, hfix,
        requiredDefault]
    · intro h
      have hfix := dictFix_required_missing d "totalAmount" (by decide)
        (by decide) (by decide) h
      simp [getKey, dlookup_append, mistralCore, dlookup, pyDictGetD, hfix,
        requiredDefault]

/-- Witness for C6 (amended): an object carrying only `totalAmount` gets
`vendorName` defaulted to `Unknown` by the OpenAI validation. -/
theorem claim_C6_witness :
    OpenaiOcr.validate "\x7b\"totalAmount\":5\x7d" =
      .ok (.dict (dictFix [("totalAmount", .int 5)])) ∧
    dlookup "vendorName" (dictFix [("totalAmount", .int 5)]) =
      some (.str "Unknown") :=
  have h := claim_C6_required_field_defaults.1 "\x7b\"totalAmount\":5\x7d"
    [("totalAmount", .int 5)] (by rfl)
  ⟨h.1, h.2.1 (by rfl)⟩

/-- Counterexample for C3 as stated: the Mistral decode-failure record is
missing the top-level key `invoiceDate`; the OpenAI success-path record for a
minimal object is missing `vendorAddress`; and a numeric `vendorName` in the
document is copied as a number, not the string type family the claim
requires. -/
theorem claim_C3_counterexample :
    getKey (MistralOcr.normalize "not json" "TS") "invoiceDate" = Option.none ∧
    getKey (OpenaiOcr.normalize
      "\x7b\"vendorName\":\"A\",\"invoiceNumber\":\"1\",\"totalAmount\":5\x7d")
      "vendorAddress" = Option.none ∧
    getKey (MistralOcr.normalize "\x7b\"vendorName\":5\x7d" "TS") "vendorName" =
      some (.int 5) := by
  exact ⟨by rfl, by rfl, by rfl⟩

/-- Claim C3 (amended): the Mistral standardization success path returns a
record containing every canonical top-level key; the Mistral decode-failure
record contains the canonical keys except `invoiceDate`, `dueDate`,
`subtotalAmount`, `taxAmount`, which are missing; the OpenAI validation of a
decoded object guarantees only the three required fields plus `lineItems` and
`handwrittenNotes`. -/
theorem claim_C3_schema_keys :
    (∀ d now r, MistralOcr.standardize (.dict d) now = .ok r →
       ∀ k, k ∈ canonical_keys → (getKey r k).isSome = true) ∧
    (∀ s e now r, json_loads s = .error e →
       MistralOcr.validate s now = .ok r →
       (∀ k, k ∈ mistral_error_present_keys → (getKey r k).isSome = true) ∧
       (∀ k, k ∈ mistral_error_missing_keys → getKey r k = Option.none)) ∧
    (∀ s d, json_loads s = .ok (.dict d) →
       ∀ k, k ∈ required_fields ++ ["lineItems", "handwrittenNotes"] →
         (getKey (.dict (dictFix d)) k).isSome = true) := by
  refine ⟨?_, ?_, ?_⟩
  · intro d now r hstd k hk
    obtain ⟨md, hr⟩ := standardize_dict_ok d now r hstd
    subst hr
    fin_cases hk <;>
      simp [getKey, dlookup_append, mistralCore, dlookup,
        MistralOcr.processing_metadata]
  · intro s e now r hjl hv
    unfold MistralOcr.validate at hv
    rw [hjl] at hv
    dsimp only at hv
    obtain ⟨md, hw⟩ :=
      withMarkdown_error_entries ("Failed to parse JSON from Mistral response: " ++ e) now
    rw [hw] at hv
    cases hv
    constructor
    · intro k hk
      fin_cases hk <;>
        simp [getKey, dlookup_append, MistralOcr.error_entries,
          MistralOcr.error_core, dlookup, MistralOcr.processing_metadata]
    · intro k hk
      fin_cases hk <;>
        simp [getKey, dlookup_append, MistralOcr.error_entries,
          MistralOcr.error_core, dlookup, MistralOcr.processing_metadata]
  · intro s d hjl k hk
    fin_cases hk
    · simpa [getKey] using dictFix_required_isSome d "vendorName" (by decide)
        (by decide) (by decide)
    · simpa [getKey] using dictFix_required_isSome d "invoiceNumber" (by decide)
        (by decide) (by decide)
    · simpa [getKey] using dictFix_required_isSome d "totalAmount" (by decide)
        (by decide) (by decide)
    · simpa [getKey] using dictFix_lineItems d
    · simpa [getKey] using dictFix_handwrittenNotes d

/-- Witness for C3 (amended): the decode-failure record of the candidate
`not json` does contain `totalAmount`. -/
theorem claim_C3_witness :
    (getKey ((MistralOcr.validate "not json" "TS").toOption.getD .none)
      "totalAmount").isSome = true :=
  (claim_C3_schema_keys.2.1 "not json" "Expecting value" "TS"
    ((MistralOcr.validate "not json" "TS").toOption.getD .none)
    (by rfl) (by rfl)).1 "totalAmount" (by decide)

/-- Counterexample for C4 as stated: two runs of the Mistral normalization of
the same candidate at different clock readings produce different records
(they differ in `processingMetadata.processingTimestamp`). -/
theorem claim_C4_counterexample :
    MistralOcr.normalize "\x7b\x7d" "2024-01-01T00:00:00" ≠
      MistralOcr.normalize "\x7b\x7d" "2024-01-01T00:00:01" := by
  intro h
  have e1 : getKey2 (MistralOcr.normalize "\x7b\x7d" "2024-01-01T00:00:00")
      "processingMetadata" "processingTimestamp" =
      some (.str "2024-01-01T00:00:00") := by rfl
  have e2 : getKey2 (MistralOcr.normalize "\x7b\x7d" "2024-01-01T00:00:01")
      "processingMetadata" "processingTimestamp" =
      some (.str "2024-01-01T00:00:01") := by rfl
  rw [h, e2] at e1
  injection e1 with h2
  injection h2 with h3
  exact absurd h3 (by decide)

/-- Claim C4 (amended): the Mistral normalizer depends on the clock only
through `processingMetadata.processingTimestamp`: for a fixed candidate
input, two runs at different clock readings agree on every other component of
the record — in particular the rendered markdown (`markdownOutput`) is
byte-identical, so `render(normalize(x))` is reproducible. -/
theorem claim_C4_normalizer_clock_only :
    ∀ (x t t' : String),
      scrubTimestamp (MistralOcr.normalize x t) =
        scrubTimestamp (MistralOcr.normalize x t') ∧
      getKey (MistralOcr.normalize x t) "markdownOutput" =
        getKey (MistralOcr.normalize x t') "markdownOutput" :=
  fun x t t' => normalize_pair x t t'
